import Mathlib

/-! Software timer (sw_timer.c): shallow embedding and verified properties

Source: src/winc1500/cert_downloader/ota_https_download/iot/sw_timer.c

Conventions of the embedding

* The handle table `handler[CONF_SW_TIMER_COUNT]` is a function from `Fin N`
  to handles; `N` stands for the constant CONF_SW_TIMER_COUNT, which is
  declared in a header that is not part of the sources and is therefore a
  parameter of every definition.
* The one-bit flags `used`, `callback_enable`, `busy` are `Bool`
  (`false` is 0, `true` is 1).
* `uint32_t` values are natural numbers; every addition and subtraction that
  can leave the 32-bit range is reduced modulo 4294967296 (2^32) where the
  source computes it.
* A function pointer is a natural number (its address); the behaviour of the
  code behind an address is given by an environment of type `sw_timer_code`.
* The static variable `sw_timer_tick` is written only by the tick interrupt;
  the sequential functions below receive its current value as the argument
  `tick`.
* `Assert` failures and the undefined division by a zero accuracy are
  results of type `Except sw_timer_fault`.
* The dispatcher returns, next to the final module, the list of callback
  invocations it made, in the order it made them.
-/

/-- Ways in which a call can go wrong instead of returning. -/
inductive sw_timer_fault where
  | assert_failed
  | division_by_zero
deriving DecidableEq, Repr

/-- Mirror of `struct sw_timer_handle`. -/
structure sw_timer_handle where
  used : Bool
  callback_enable : Bool
  busy : Bool
  callback : Nat
  context : Nat
  period : Nat
  expire_time : Nat
deriving DecidableEq, Repr

/-- Mirror of `struct sw_timer_module` (the hardware timer instance is left out). -/
structure sw_timer_module (N : Nat) where
  accuracy : Nat
  handler : Fin N → sw_timer_handle

/-- Mirror of `struct sw_timer_config`. -/
structure sw_timer_config where
  accuracy : Nat
  tcc_dev : Nat
  tcc_callback_channel : Nat
deriving DecidableEq, Repr

/-- Assignment through `handler = &module_inst->handler[index]`: slot `index`
becomes `h`, every other slot and the accuracy stay as they are. -/
def sw_timer_module.store {N : Nat} (m : sw_timer_module N) (index : Fin N)
    (h : sw_timer_handle) : sw_timer_module N :=
  { m with handler := fun j => if j = index then h else m.handler j }

/-- Behaviour of `sw_timer_callback_t`: called with the module, the timer id,
the context and the period, it returns the module as the callback left it. -/
abbrev sw_timer_callback_t (N : Nat) :=
  sw_timer_module N → Int → Nat → Nat → sw_timer_module N

/-- Code environment: the behaviour of the function stored at an address, as a
function of the value of `sw_timer_tick` while it runs. -/
abbrev sw_timer_code (N : Nat) := Nat → Nat → sw_timer_callback_t N

/-- One callback invocation made by the dispatcher: the function pointer that
was called, the three scalar arguments, and the module state handed over. -/
structure sw_timer_call (N : Nat) where
  callback : Nat
  timer_id : Int
  context : Nat
  period : Nat
  observed : sw_timer_module N

/-- Unsigned 32-bit subtraction `a - b`. -/
def u32_sub (a b : Nat) : Nat :=
  (a % 4294967296 + (4294967296 - b % 4294967296)) % 4294967296

/-- The cast `(int)x` of a 32-bit unsigned value (two-complement reading). -/
def int32_of_u32 (x : Nat) : Int :=
  if x % 4294967296 < 2147483648 then ((x % 4294967296 : Nat) : Int)
  else ((x % 4294967296 : Nat) : Int) - 4294967296

/-- The test `(int)(handler->expire_time - sw_timer_tick) < 0` of `sw_timer_task`. -/
def sw_timer_expired (expire_time tick : Nat) : Bool :=
  decide (int32_of_u32 (u32_sub expire_time tick) < 0)

/-- Mirror of `sw_timer_get_config_defaults`. -/
def sw_timer_get_config_defaults (_config : sw_timer_config) : sw_timer_config :=
  { accuracy := 100, tcc_dev := 0, tcc_callback_channel := 0 }

/-- Mirror of `sw_timer_init`. The two assertions on the configuration compare
against the constants TCC_INST_NUM and TCC_NUM_CHANNELS of the device headers,
which are not part of the sources and are parameters here. The hardware set-up
under the platform conditionals is left out, so the only write is the copy of
the accuracy into the module. -/
def sw_timer_init {N : Nat} (TCC_INST_NUM TCC_NUM_CHANNELS : Nat)
    (module_inst : sw_timer_module N) (config : sw_timer_config) :
    Except sw_timer_fault (sw_timer_module N) :=
  if config.tcc_dev < TCC_INST_NUM then
    if config.tcc_callback_channel < TCC_NUM_CHANNELS then
      .ok { module_inst with accuracy := config.accuracy }
    else .error sw_timer_fault.assert_failed
  else .error sw_timer_fault.assert_failed

/-- The `for` loop of `sw_timer_register_callback`, started at `index` with
`fuel` iterations left to try. -/
def sw_timer_register_callback_from {N : Nat} (module_inst : sw_timer_module N)
    (callback context period : Nat) :
    Nat → Nat → Except sw_timer_fault (Int × sw_timer_module N)
  | 0, _ => .ok (-1, module_inst)
  | fuel + 1, index =>
    if h : index < N then
      if (module_inst.handler ⟨index, h⟩).used = false then
        if module_inst.accuracy = 0 then .error sw_timer_fault.division_by_zero
        else
          .ok ((index : Int),
            module_inst.store ⟨index, h⟩
              { module_inst.handler ⟨index, h⟩ with
                callback := callback
                callback_enable := false
                context := context
                period := period / module_inst.accuracy
                used := true })
      else sw_timer_register_callback_from module_inst callback context period fuel (index + 1)
    else .ok (-1, module_inst)

/-- Mirror of `sw_timer_register_callback`: the returned integer and the module
after the call. -/
def sw_timer_register_callback {N : Nat} (module_inst : sw_timer_module N)
    (callback context period : Nat) : Except sw_timer_fault (Int × sw_timer_module N) :=
  sw_timer_register_callback_from module_inst callback context period N 0

/-- Mirror of `sw_timer_unregister_callback`. -/
def sw_timer_unregister_callback {N : Nat} (module_inst : sw_timer_module N)
    (timer_id : Int) : Except sw_timer_fault (sw_timer_module N) :=
  if h : 0 ≤ timer_id ∧ timer_id < (N : Int) then
    let index : Fin N := ⟨timer_id.toNat, by omega⟩
    .ok (module_inst.store index { module_inst.handler index with used := false })
  else .error sw_timer_fault.assert_failed

/-- Mirror of `sw_timer_enable_callback`; `tick` is the value of `sw_timer_tick`. -/
def sw_timer_enable_callback {N : Nat} (tick : Nat) (module_inst : sw_timer_module N)
    (timer_id : Int) (delay : Nat) : Except sw_timer_fault (sw_timer_module N) :=
  if h : 0 ≤ timer_id ∧ timer_id < (N : Int) then
    let index : Fin N := ⟨timer_id.toNat, by omega⟩
    if module_inst.accuracy = 0 then .error sw_timer_fault.division_by_zero
    else
      .ok (module_inst.store index
        { module_inst.handler index with
          callback_enable := true
          expire_time := (tick + delay / module_inst.accuracy) % 4294967296 })
  else .error sw_timer_fault.assert_failed

/-- Mirror of `sw_timer_disable_callback`. -/
def sw_timer_disable_callback {N : Nat} (module_inst : sw_timer_module N)
    (timer_id : Int) : Except sw_timer_fault (sw_timer_module N) :=
  if h : 0 ≤ timer_id ∧ timer_id < (N : Int) then
    let index : Fin N := ⟨timer_id.toNat, by omega⟩
    .ok (module_inst.store index { module_inst.handler index with callback_enable := false })
  else .error sw_timer_fault.assert_failed

/-- What the dispatcher writes into a slot before it calls the callback:
`busy = 1`, then either the new expire time (periodic) or `callback_enable = 0`
(one shot). -/
def sw_timer_task_arm (tick : Nat) (handler : sw_timer_handle) : sw_timer_handle :=
  if handler.period > 0 then
    { handler with busy := true, expire_time := (tick + handler.period) % 4294967296 }
  else
    { handler with busy := true, callback_enable := false }

/-- Body of the `for` loop of `sw_timer_task` for one `index`: the module after
the iteration and the invocations made in it (none or one). -/
def sw_timer_task_body {N : Nat} (code : sw_timer_code N) (tick : Nat) (index : Fin N)
    (module_inst : sw_timer_module N) : sw_timer_module N × List (sw_timer_call N) :=
  if (module_inst.handler index).used && (module_inst.handler index).callback_enable then
    if sw_timer_expired (module_inst.handler index).expire_time tick
        && (module_inst.handler index).busy == false then
      let handler := sw_timer_task_arm tick (module_inst.handler index)
      let entered := module_inst.store index handler
      let returned :=
        code handler.callback tick entered (index.val : Int) handler.context handler.period
      (returned.store index { returned.handler index with busy := false },
        [{ callback := handler.callback, timer_id := (index.val : Int),
           context := handler.context, period := handler.period, observed := entered }])
    else (module_inst, [])
  else (module_inst, [])

/-- The `for` loop of `sw_timer_task`, started at `index` with `fuel`
iterations left. -/
def sw_timer_task_from {N : Nat} (code : sw_timer_code N) (tick : Nat) :
    Nat → Nat → sw_timer_module N → sw_timer_module N × List (sw_timer_call N)
  | 0, _, module_inst => (module_inst, [])
  | fuel + 1, index, module_inst =>
    if h : index < N then
      let step := sw_timer_task_body code tick ⟨index, h⟩ module_inst
      let rest := sw_timer_task_from code tick fuel (index + 1) step.1
      (rest.1, step.2 ++ rest.2)
    else (module_inst, [])

/-- Mirror of `sw_timer_task` (one dispatcher pass at tick value `tick`). -/
def sw_timer_task {N : Nat} (code : sw_timer_code N) (tick : Nat)
    (module_inst : sw_timer_module N) : sw_timer_module N × List (sw_timer_call N) :=
  sw_timer_task_from code tick N 0 module_inst

/-- A sequence of dispatcher passes, one for each tick value of the list, in
order; the invocations of all passes are collected. -/
def sw_timer_task_seq {N : Nat} (code : sw_timer_code N) :
    List Nat → sw_timer_module N → sw_timer_module N × List (sw_timer_call N)
  | [], module_inst => (module_inst, [])
  | tick :: ticks, module_inst =>
    let first := sw_timer_task code tick module_inst
    let rest := sw_timer_task_seq code ticks first.1
    (rest.1, first.2 ++ rest.2)

/-- A sequence of `sw_timer_register_callback` calls, one for each
(callback, context, period) triple, in order; the returned integers are
collected. -/
def sw_timer_register_seq {N : Nat} :
    List (Nat × Nat × Nat) → sw_timer_module N →
      Except sw_timer_fault (List Int × sw_timer_module N)
  | [], module_inst => .ok ([], module_inst)
  | (callback, context, period) :: calls, module_inst =>
    match sw_timer_register_callback module_inst callback context period with
    | .error e => .error e
    | .ok (id, next) =>
      match sw_timer_register_seq calls next with
      | .error e => .error e
      | .ok (ids, last) => .ok (id :: ids, last)

/-- The invocations of a log that were made for timer id `i`. -/
def sw_timer_calls_of {N : Nat} (log : List (sw_timer_call N)) (i : Int) :
    List (sw_timer_call N) :=
  log.filter (fun c => decide (c.timer_id = i))

/-- Callbacks invoked for a timer id other than `i` leave slot `i` as it is. -/
def sw_timer_others_keep {N : Nat} (code : sw_timer_code N) (i : Fin N) : Prop :=
  ∀ (p tick : Nat) (m : sw_timer_module N) (id : Int) (context period : Nat),
    id ≠ (i.val : Int) → (code p tick m id context period).handler i = m.handler i

/-- A module with every slot free and zeroed. -/
def sw_timer_blank (N accuracy : Nat) : sw_timer_module N :=
  { accuracy := accuracy
    handler := fun _ =>
      { used := false, callback_enable := false, busy := false, callback := 0,
        context := 0, period := 0, expire_time := 0 } }

/-- Code environment in which every callback returns without touching the module. -/
def sw_timer_code_idle (N : Nat) : sw_timer_code N :=
  fun _ _ m _ _ _ => m

/-! ## Auxiliary definitions: named states, sample modules and code environments -/

/-- The slot contents written by a successful registration of slot `i`. -/
def sw_timer_registered {N : Nat} (m : sw_timer_module N) (i : Fin N)
    (callback context period : Nat) : sw_timer_module N :=
  m.store i
    { m.handler i with
      callback := callback
      callback_enable := false
      context := context
      period := period / m.accuracy
      used := true }

/-- A two-slot module whose slot 0 is taken and whose slot 1 is free. -/
def sw_timer_sample_one_used : sw_timer_module 2 :=
  { accuracy := 10
    handler := fun j =>
      { used := decide (j.val = 0), callback_enable := false, busy := false, callback := 3,
        context := 4, period := 5, expire_time := 6 } }

/-- A two-slot module with both slots taken (and accuracy 0, which is never
read on this path). -/
def sw_timer_sample_full : sw_timer_module 2 :=
  { accuracy := 0
    handler := fun j =>
      { used := true, callback_enable := decide (j.val = 1), busy := false, callback := 3,
        context := 4, period := 5, expire_time := 6 } }

/-- State of the table after the first `k` slots were claimed in order: the
slots below `k` are in use, the slots from `k` on are free. -/
def sw_timer_filled_to {N : Nat} (m : sw_timer_module N) (k : Nat) : Prop :=
  ∀ j : Fin N, (j.val < k → (m.handler j).used = true) ∧
    (k ≤ j.val → (m.handler j).used = false)

/-- A two-slot module whose slot 1 is registered and already enabled. -/
def sw_timer_sample_enabled : sw_timer_module 2 :=
  { accuracy := 10
    handler := fun j =>
      { used := decide (j.val = 1), callback_enable := decide (j.val = 1), busy := false,
        callback := 3, context := 4, period := 5, expire_time := 6 } }

/-- The four conditions under which the loop body of `sw_timer_task` invokes the
callback of a slot: used, enabled, expired at `tick`, and not busy. -/
def sw_timer_fires (tick : Nat) (h : sw_timer_handle) : Bool :=
  h.used && h.callback_enable && sw_timer_expired h.expire_time tick && (h.busy == false)

/-- The module handed to the callback of slot `index`. -/
def sw_timer_task_entered {N : Nat} (tick : Nat) (index : Fin N) (m : sw_timer_module N) :
    sw_timer_module N :=
  m.store index (sw_timer_task_arm tick (m.handler index))

/-- The module as the callback of slot `index` returns it. -/
def sw_timer_task_returned {N : Nat} (code : sw_timer_code N) (tick : Nat) (index : Fin N)
    (m : sw_timer_module N) : sw_timer_module N :=
  code (m.handler index).callback tick (sw_timer_task_entered tick index m) (index.val : Int)
    (m.handler index).context (m.handler index).period

/-- A two-slot module whose slot 1 is armed with an expire time five ticks
before the counter wraps; slot 0 is armed as well. -/
def sw_timer_sample_near_wrap : sw_timer_module 2 :=
  { accuracy := 10
    handler := fun j =>
      { used := true, callback_enable := true, busy := false, callback := 3 + j.val,
        context := 4, period := 0, expire_time := 4294967290 } }

/-- A two-slot module in which both slots are registered and idle; slot 0 is
the periodic timer of the scenario (period 10 ticks). -/
def sw_timer_sample_registered : sw_timer_module 2 :=
  { accuracy := 10
    handler := fun j =>
      { used := true, callback_enable := false, busy := false, callback := 7 + j.val,
        context := 8, period := 10, expire_time := 0 } }

/-- A two-slot module whose slot 0 is a periodic timer (period 10 ticks) armed
for tick 100; slot 1 is free. -/
def sw_timer_sample_periodic : sw_timer_module 2 :=
  { accuracy := 10
    handler := fun j =>
      { used := decide (j.val = 0), callback_enable := decide (j.val = 0), busy := false,
        callback := 7, context := 8, period := 10, expire_time := 100 } }

/-- Code environment in which every callback re-arms its own timer: it calls
`sw_timer_enable_callback(module, timer_id, delay)` and returns. -/
def sw_timer_code_rearm (N delay : Nat) : sw_timer_code N :=
  fun _ tick m id _ _ =>
    match sw_timer_enable_callback tick m id delay with
    | .ok m' => m'
    | .error _ => m

/-- A two-slot module whose slot 1 is a one-shot timer (period 0) armed for
tick 100; slot 0 is registered but disabled. -/
def sw_timer_sample_one_shot : sw_timer_module 2 :=
  { accuracy := 10
    handler := fun j =>
      { used := true, callback_enable := decide (j.val = 1), busy := false,
        callback := 7, context := 8, period := 0, expire_time := 100 } }

/-- A one-slot module whose only slot is free and carries the leftovers of an
earlier registration: the given expire time and busy flag, an enabled flag, a
callback, a context and a period. -/
def sw_timer_sample_stale (expire_time : Nat) (busy : Bool) : sw_timer_module 1 :=
  { accuracy := 10
    handler := fun _ =>
      { used := false, callback_enable := true, busy := busy, callback := 3,
        context := 4, period := 5, expire_time := expire_time } }

/-- Code environment in which the function at address 7 calls
`sw_timer_disable_callback(module, 1)` and every other function returns at
once. -/
def sw_timer_code_disable_one (N : Nat) : sw_timer_code N :=
  fun p _ m _ _ _ =>
    if p = 7 then
      match sw_timer_disable_callback m 1 with
      | .ok m' => m'
      | .error _ => m
    else m

/-- A three-slot module in which all three timers are one shots armed for tick
100; slot 0 holds the function at address 7, slots 1 and 2 the one at 8. -/
def sw_timer_sample_three_due : sw_timer_module 3 :=
  { accuracy := 10
    handler := fun j =>
      { used := true, callback_enable := true, busy := false,
        callback := if j.val = 0 then 7 else 8, context := 4, period := 0,
        expire_time := 100 } }

/-- The module states a callback can produce from `m` by calling only the
interface of the timer module: any finite sequence of returning calls of
`sw_timer_register_callback`, `sw_timer_unregister_callback`,
`sw_timer_enable_callback`, `sw_timer_disable_callback` and (re-entrant)
`sw_timer_task`, the latter running the same code environment at the same
tick. -/
inductive sw_timer_api_reach {N : Nat} (code : sw_timer_code N) (tick : Nat) :
    sw_timer_module N → sw_timer_module N → Prop where
  | refl (m : sw_timer_module N) : sw_timer_api_reach code tick m m
  | register {m m1 m2 : sw_timer_module N} (callback context period : Nat) (id : Int) :
      sw_timer_api_reach code tick m m1 →
      sw_timer_register_callback m1 callback context period = .ok (id, m2) →
      sw_timer_api_reach code tick m m2
  | unregister {m m1 m2 : sw_timer_module N} (timer_id : Int) :
      sw_timer_api_reach code tick m m1 →
      sw_timer_unregister_callback m1 timer_id = .ok m2 →
      sw_timer_api_reach code tick m m2
  | enable {m m1 m2 : sw_timer_module N} (timer_id : Int) (delay : Nat) :
      sw_timer_api_reach code tick m m1 →
      sw_timer_enable_callback tick m1 timer_id delay = .ok m2 →
      sw_timer_api_reach code tick m m2
  | disable {m m1 m2 : sw_timer_module N} (timer_id : Int) :
      sw_timer_api_reach code tick m m1 →
      sw_timer_disable_callback m1 timer_id = .ok m2 →
      sw_timer_api_reach code tick m m2
  | task {m m1 : sw_timer_module N} :
      sw_timer_api_reach code tick m m1 →
      sw_timer_api_reach code tick m (sw_timer_task code tick m1).1

/-- Every callback of the environment changes the module only through the
interface of the timer module. -/
def sw_timer_api_only {N : Nat} (code : sw_timer_code N) : Prop :=
  ∀ (p tick : Nat) (m : sw_timer_module N) (id : Int) (context period : Nat),
    sw_timer_api_reach code tick m (code p tick m id context period)

/-- The two modules have the same busy flag in every slot. -/
def sw_timer_same_busy {N : Nat} (m m' : sw_timer_module N) : Prop :=
  ∀ j : Fin N, (m'.handler j).busy = (m.handler j).busy

/-- Number of slots whose busy flag is clear. -/
def sw_timer_idle_count {N : Nat} (m : sw_timer_module N) : Nat :=
  (Finset.univ.filter (fun j : Fin N => (m.handler j).busy = false)).card

/-- Code environment for a one-slot module in which every callback re-enters
the dispatcher: it calls `sw_timer_task(module)` and returns. With a single
slot, that slot is busy during the inner pass. -/
def sw_timer_code_reenter : sw_timer_code 1 :=
  fun _ tick m _ _ _ => (sw_timer_task (sw_timer_code_idle 1) tick m).1

/-- A one-slot module whose timer is a periodic timer armed for tick 100. -/
def sw_timer_sample_single : sw_timer_module 1 :=
  { accuracy := 10
    handler := fun _ =>
      { used := true, callback_enable := true, busy := false, callback := 7,
        context := 8, period := 10, expire_time := 100 } }

/-- A two-slot module with accuracy 1 (one tick per millisecond) in which both
slots are registered and idle. -/
def sw_timer_sample_fine : sw_timer_module 2 :=
  { accuracy := 1
    handler := fun j =>
      { used := true, callback_enable := false, busy := false, callback := 7 + j.val,
        context := 8, period := 0, expire_time := 0 } }

/-! ## Slot assignment -/

theorem store_handler_same {N : Nat} (m : sw_timer_module N) (i : Fin N) (h : sw_timer_handle) :
    (m.store i h).handler i = h := by
  simp [sw_timer_module.store]

theorem store_handler_other {N : Nat} (m : sw_timer_module N) (i j : Fin N)
    (h : sw_timer_handle) (hne : j ≠ i) : (m.store i h).handler j = m.handler j := by
  simp [sw_timer_module.store, hne]

theorem store_accuracy {N : Nat} (m : sw_timer_module N) (i : Fin N) (h : sw_timer_handle) :
    (m.store i h).accuracy = m.accuracy := rfl

/-! ## Registration -/

theorem register_from_hit {N : Nat} (m : sw_timer_module N) (callback context period : Nat)
    (i : Fin N) (hacc : m.accuracy ≠ 0) (hfree : (m.handler i).used = false) :
    ∀ (fuel index : Nat), index ≤ i.val → i.val < index + fuel →
      (∀ j : Fin N, index ≤ j.val → j.val < i.val → (m.handler j).used = true) →
      sw_timer_register_callback_from m callback context period fuel index
        = .ok ((i.val : Int), sw_timer_registered m i callback context period) := by
  intro fuel
  induction fuel with
  | zero => intro index h1 h2; omega
  | succ fuel ih =>
    intro index h1 h2 hused
    have hlt : index < N := lt_of_le_of_lt h1 i.isLt
    rw [sw_timer_register_callback_from, dif_pos hlt]
    by_cases hi : index = i.val
    · have hfin : (⟨index, hlt⟩ : Fin N) = i := Fin.ext hi
      rw [hfin, if_pos hfree, if_neg hacc, sw_timer_registered, hi]
    · have hu : (m.handler ⟨index, hlt⟩).used = true :=
        hused ⟨index, hlt⟩ (le_refl _) (by show index < i.val; omega)
      rw [if_neg (by simp [hu])]
      exact ih (index + 1) (by omega) (by omega)
        (fun j hj1 hj2 => hused j (by omega) hj2)

theorem register_from_full {N : Nat} (m : sw_timer_module N) (callback context period : Nat) :
    ∀ (fuel index : Nat),
      (∀ j : Fin N, index ≤ j.val → (m.handler j).used = true) →
      sw_timer_register_callback_from m callback context period fuel index
        = .ok (-1, m) := by
  intro fuel
  induction fuel with
  | zero => intro index _; rfl
  | succ fuel ih =>
    intro index hused
    rw [sw_timer_register_callback_from]
    by_cases hlt : index < N
    · rw [dif_pos hlt]
      have hu : (m.handler ⟨index, hlt⟩).used = true := hused ⟨index, hlt⟩ (le_refl _)
      rw [if_neg (by simp [hu])]
      exact ih (index + 1) (fun j hj => hused j (by omega))
    · rw [dif_neg hlt]

/-- Registration into the lowest free slot `i`: the call returns `i` and the
module in which only slot `i` was rewritten. -/
theorem register_lowest {N : Nat} (m : sw_timer_module N) (callback context period : Nat)
    (i : Fin N) (hacc : m.accuracy ≠ 0) (hfree : (m.handler i).used = false)
    (hlow : ∀ j : Fin N, j.val < i.val → (m.handler j).used = true) :
    sw_timer_register_callback m callback context period
      = .ok ((i.val : Int), sw_timer_registered m i callback context period) :=
  register_from_hit m callback context period i hacc hfree N 0 (Nat.zero_le _)
    (by have := i.isLt; omega) (fun j _ hj => hlow j hj)

/-- A table with a free slot has a lowest free slot. -/
theorem lowest_free_exists {N : Nat} (m : sw_timer_module N)
    (hfree : ∃ i : Fin N, (m.handler i).used = false) :
    ∃ i : Fin N, (m.handler i).used = false ∧
      ∀ j : Fin N, j.val < i.val → (m.handler j).used = true := by
  classical
  have hex : ∃ n : Nat, ∃ h : n < N, (m.handler ⟨n, h⟩).used = false := by
    obtain ⟨i, hi⟩ := hfree
    exact ⟨i.val, i.isLt, hi⟩
  obtain ⟨hlt, hu⟩ := Nat.find_spec hex
  refine ⟨⟨Nat.find hex, hlt⟩, hu, ?_⟩
  intro j hj
  have hmin := Nat.find_min hex hj
  by_contra hc
  exact hmin ⟨j.isLt, by simpa using hc⟩

/-- Claim C1. In a module with accuracy > 0 that has a free slot,
`sw_timer_register_callback` returns the lowest index `i` whose slot is free;
afterwards slot `i` holds the given callback and context, has
`callback_enable = 0`, `period = period_ms / accuracy` (integer division) and
`used = 1`, and every other slot (and the accuracy) is unchanged. -/
theorem register_callback_claims_lowest_free {N : Nat} (m : sw_timer_module N)
    (callback context period_ms : Nat) (hacc : 0 < m.accuracy)
    (hfree : ∃ i : Fin N, (m.handler i).used = false) :
    ∃ (i : Fin N) (m' : sw_timer_module N),
      sw_timer_register_callback m callback context period_ms = .ok ((i.val : Int), m') ∧
      (m.handler i).used = false ∧
      (∀ j : Fin N, j.val < i.val → (m.handler j).used = true) ∧
      (m'.handler i).callback = callback ∧
      (m'.handler i).context = context ∧
      (m'.handler i).callback_enable = false ∧
      (m'.handler i).period = period_ms / m.accuracy ∧
      (m'.handler i).used = true ∧
      (∀ j : Fin N, j ≠ i → m'.handler j = m.handler j) ∧
      m'.accuracy = m.accuracy := by
  obtain ⟨i, hi, hlow⟩ := lowest_free_exists m hfree
  refine ⟨i, sw_timer_registered m i callback context period_ms,
    register_lowest m callback context period_ms i (by omega) hi hlow, hi, hlow,
    ?_, ?_, ?_, ?_, ?_, ?_, rfl⟩
  · simp [sw_timer_registered, store_handler_same]
  · simp [sw_timer_registered, store_handler_same]
  · simp [sw_timer_registered, store_handler_same]
  · simp [sw_timer_registered, store_handler_same]
  · simp [sw_timer_registered, store_handler_same]
  · intro j hj
    exact store_handler_other _ _ _ _ hj

theorem register_callback_claims_lowest_free_witness :
    (0 < sw_timer_sample_one_used.accuracy ∧
      ∃ i : Fin 2, (sw_timer_sample_one_used.handler i).used = false) ∧
    ∃ (i : Fin 2) (m' : sw_timer_module 2),
      sw_timer_register_callback sw_timer_sample_one_used 7 8 100 = .ok ((i.val : Int), m') ∧
      (sw_timer_sample_one_used.handler i).used = false ∧
      (∀ j : Fin 2, j.val < i.val → (sw_timer_sample_one_used.handler j).used = true) ∧
      (m'.handler i).callback = 7 ∧
      (m'.handler i).context = 8 ∧
      (m'.handler i).callback_enable = false ∧
      (m'.handler i).period = 100 / sw_timer_sample_one_used.accuracy ∧
      (m'.handler i).used = true ∧
      (∀ j : Fin 2, j ≠ i → m'.handler j = sw_timer_sample_one_used.handler j) ∧
      m'.accuracy = sw_timer_sample_one_used.accuracy :=
  ⟨⟨by decide, ⟨1, by decide⟩⟩,
    register_callback_claims_lowest_free sw_timer_sample_one_used 7 8 100 (by decide)
      ⟨1, by decide⟩⟩

/-- Claim C2. When every slot is in use, `sw_timer_register_callback` returns -1,
which is not an index of the table, and the module after the call is the module
before it. -/
theorem register_callback_full_returns_minus_one {N : Nat} (m : sw_timer_module N)
    (callback context period_ms : Nat)
    (hfull : ∀ i : Fin N, (m.handler i).used = true) :
    sw_timer_register_callback m callback context period_ms = .ok (-1, m) ∧
      ¬ (0 ≤ (-1 : Int) ∧ (-1 : Int) < (N : Int)) :=
  ⟨register_from_full m callback context period_ms N 0 (fun j _ => hfull j), by omega⟩

theorem register_callback_full_returns_minus_one_witness :
    (∀ i : Fin 2, (sw_timer_sample_full.handler i).used = true) ∧
    (sw_timer_register_callback sw_timer_sample_full 7 8 100 = .ok (-1, sw_timer_sample_full) ∧
      ¬ (0 ≤ (-1 : Int) ∧ (-1 : Int) < ((2 : Nat) : Int))) :=
  ⟨by decide, register_callback_full_returns_minus_one sw_timer_sample_full 7 8 100 (by decide)⟩

theorem filled_to_registered {N : Nat} (m : sw_timer_module N) (k : Nat) (hk : k < N)
    (callback context period : Nat) (hfill : sw_timer_filled_to m k) :
    sw_timer_filled_to (sw_timer_registered m ⟨k, hk⟩ callback context period) (k + 1) := by
  intro j
  by_cases hj : j = ⟨k, hk⟩
  · subst hj
    simp [sw_timer_registered, store_handler_same]
  · have hne : j.val ≠ k := fun h => hj (Fin.ext h)
    rw [sw_timer_registered, store_handler_other _ _ _ _ hj]
    exact ⟨fun h => (hfill j).1 (by omega), fun h => (hfill j).2 (by omega)⟩

theorem register_seq_from_filled {N : Nat} :
    ∀ (d k : Nat) (m : sw_timer_module N) (calls : List (Nat × Nat × Nat)),
      k + d = N → m.accuracy ≠ 0 → sw_timer_filled_to m k → calls.length = d + 1 →
      ∃ m' : sw_timer_module N,
        sw_timer_register_seq calls m
          = .ok ((List.range' k d).map (fun n : Nat => (n : Int)) ++ [-1], m') := by
  intro d
  induction d with
  | zero =>
    intro k m calls hk _ hfill hlen
    match calls, hlen with
    | [(callback, context, period)], _ =>
      have hfull : sw_timer_register_callback m callback context period = .ok (-1, m) :=
        register_from_full m callback context period N 0
          (fun j _ => (hfill j).1 (by have := j.isLt; omega))
      exact ⟨m, by simp [sw_timer_register_seq, hfull]⟩
  | succ d ih =>
    intro k m calls hk hacc hfill hlen
    match calls, hlen with
    | (callback, context, period) :: rest, hlen =>
      have hlt : k < N := by omega
      have hreg := register_lowest m callback context period ⟨k, hlt⟩ hacc
        ((hfill ⟨k, hlt⟩).2 (le_refl _)) (fun j hj => (hfill j).1 hj)
      obtain ⟨m', hm'⟩ := ih (k + 1)
        (sw_timer_registered m ⟨k, hlt⟩ callback context period) rest (by omega)
        (by simpa [sw_timer_registered, store_accuracy] using hacc)
        (filled_to_registered m k hlt callback context period hfill)
        (by simpa using hlen)
      refine ⟨m', ?_⟩
      simp only [sw_timer_register_seq, hreg, hm']
      simp [List.range'_succ]

/-- Claim C3. From a module with accuracy > 0 and all `N` slots free, `N + 1`
consecutive registrations (any callbacks, contexts and periods, nothing
unregistered in between) return 0, 1, ..., N-1 in that order and then -1: the
first `N` ids are pairwise distinct and lie in [0, N), the last call reports
the exhausted table. -/
theorem register_seq_exhausts_table {N : Nat} (m : sw_timer_module N)
    (calls : List (Nat × Nat × Nat)) (hacc : 0 < m.accuracy)
    (hfree : ∀ i : Fin N, (m.handler i).used = false) (hlen : calls.length = N + 1) :
    ∃ (ids : List Int) (m' : sw_timer_module N),
      sw_timer_register_seq calls m = .ok (ids ++ [-1], m') ∧
      ids = (List.range N).map (fun n : Nat => (n : Int)) ∧
      ids.length = N ∧ ids.Nodup ∧ ∀ id ∈ ids, 0 ≤ id ∧ id < (N : Int) := by
  obtain ⟨m', hm'⟩ := register_seq_from_filled N 0 m calls (by omega) (by omega)
    (fun j => ⟨fun h => by omega, fun _ => hfree j⟩) hlen
  refine ⟨(List.range N).map (fun n : Nat => (n : Int)), m', ?_, rfl, by simp, ?_, ?_⟩
  · rw [hm', List.range_eq_range']
  · exact (List.nodup_range N).map (fun a b h => by simpa using h)
  · intro id hid
    simp only [List.mem_map, List.mem_range] at hid
    obtain ⟨n, hn, rfl⟩ := hid
    omega

theorem register_seq_exhausts_table_witness :
    (0 < (sw_timer_blank 2 10).accuracy ∧
      (∀ i : Fin 2, ((sw_timer_blank 2 10).handler i).used = false) ∧
      [(7, 8, 100), (9, 10, 0), (11, 12, 55)].length = 2 + 1) ∧
    ∃ (ids : List Int) (m' : sw_timer_module 2),
      sw_timer_register_seq [(7, 8, 100), (9, 10, 0), (11, 12, 55)] (sw_timer_blank 2 10)
        = .ok (ids ++ [-1], m') ∧
      ids = (List.range 2).map (fun n : Nat => (n : Int)) ∧
      ids.length = 2 ∧ ids.Nodup ∧ ∀ id ∈ ids, 0 ≤ id ∧ id < ((2 : Nat) : Int) :=
  ⟨⟨by decide, by decide, by decide⟩,
    register_seq_exhausts_table (sw_timer_blank 2 10) [(7, 8, 100), (9, 10, 0), (11, 12, 55)]
      (by decide) (by decide) (by decide)⟩

/-! ## Unregister, enable, disable -/

theorem unregister_callback_ok {N : Nat} (m : sw_timer_module N) (i : Fin N) :
    sw_timer_unregister_callback m (i.val : Int)
      = .ok (m.store i { m.handler i with used := false }) := by
  have h : 0 ≤ (i.val : Int) ∧ (i.val : Int) < (N : Int) := by
    have := i.isLt; omega
  simp [sw_timer_unregister_callback, h]

theorem disable_callback_ok {N : Nat} (m : sw_timer_module N) (i : Fin N) :
    sw_timer_disable_callback m (i.val : Int)
      = .ok (m.store i { m.handler i with callback_enable := false }) := by
  have h : 0 ≤ (i.val : Int) ∧ (i.val : Int) < (N : Int) := by
    have := i.isLt; omega
  simp [sw_timer_disable_callback, h]

theorem enable_callback_ok {N : Nat} (tick : Nat) (m : sw_timer_module N) (i : Fin N)
    (delay : Nat) (hacc : m.accuracy ≠ 0) :
    sw_timer_enable_callback tick m (i.val : Int) delay
      = .ok (m.store i
          { m.handler i with
            callback_enable := true
            expire_time := (tick + delay / m.accuracy) % 4294967296 }) := by
  have h : 0 ≤ (i.val : Int) ∧ (i.val : Int) < (N : Int) := by
    have := i.isLt; omega
  simp [sw_timer_enable_callback, h, hacc]

/-- Claim C4. For accuracy > 0, a timer id in [0, N), any delay and any current
tick `t`, `sw_timer_enable_callback` returns normally; afterwards the slot has
`callback_enable = 1` and `expire_time = (t + delay_ms / accuracy) mod 2^32`,
whatever `callback_enable` and `expire_time` were before; the other fields of
the slot, all other slots and the accuracy are unchanged. -/
theorem enable_callback_arms_slot {N : Nat} (t : Nat) (m : sw_timer_module N)
    (timer_id : Int) (delay_ms : Nat) (hacc : 0 < m.accuracy)
    (hlo : 0 ≤ timer_id) (hhi : timer_id < (N : Int)) :
    ∃ (i : Fin N) (m' : sw_timer_module N),
      (i.val : Int) = timer_id ∧
      sw_timer_enable_callback t m timer_id delay_ms = .ok m' ∧
      (m'.handler i).callback_enable = true ∧
      (m'.handler i).expire_time = (t + delay_ms / m.accuracy) % 4294967296 ∧
      (m'.handler i).used = (m.handler i).used ∧
      (m'.handler i).busy = (m.handler i).busy ∧
      (m'.handler i).callback = (m.handler i).callback ∧
      (m'.handler i).context = (m.handler i).context ∧
      (m'.handler i).period = (m.handler i).period ∧
      (∀ j : Fin N, j ≠ i → m'.handler j = m.handler j) ∧
      m'.accuracy = m.accuracy := by
  have hlt : timer_id.toNat < N := by omega
  have hid : ((timer_id.toNat : Nat) : Int) = timer_id := by omega
  obtain ⟨i, hi⟩ : ∃ i : Fin N, (i.val : Int) = timer_id := ⟨⟨timer_id.toNat, hlt⟩, hid⟩
  subst hi
  refine ⟨i, m.store i
      { m.handler i with
        callback_enable := true
        expire_time := (t + delay_ms / m.accuracy) % 4294967296 },
    rfl, enable_callback_ok t m i delay_ms (by omega), ?_, ?_, ?_, ?_, ?_, ?_, ?_, ?_, rfl⟩
  · simp [store_handler_same]
  · simp [store_handler_same]
  · simp [store_handler_same]
  · simp [store_handler_same]
  · simp [store_handler_same]
  · simp [store_handler_same]
  · simp [store_handler_same]
  · intro j hj
    exact store_handler_other _ _ _ _ hj

theorem enable_callback_arms_slot_witness :
    (0 < sw_timer_sample_enabled.accuracy ∧ (0 : Int) ≤ 1 ∧ (1 : Int) < ((2 : Nat) : Int)) ∧
    ∃ (i : Fin 2) (m' : sw_timer_module 2),
      (i.val : Int) = 1 ∧
      sw_timer_enable_callback 4294967290 sw_timer_sample_enabled 1 75 = .ok m' ∧
      (m'.handler i).callback_enable = true ∧
      (m'.handler i).expire_time
        = (4294967290 + 75 / sw_timer_sample_enabled.accuracy) % 4294967296 ∧
      (m'.handler i).used = (sw_timer_sample_enabled.handler i).used ∧
      (m'.handler i).busy = (sw_timer_sample_enabled.handler i).busy ∧
      (m'.handler i).callback = (sw_timer_sample_enabled.handler i).callback ∧
      (m'.handler i).context = (sw_timer_sample_enabled.handler i).context ∧
      (m'.handler i).period = (sw_timer_sample_enabled.handler i).period ∧
      (∀ j : Fin 2, j ≠ i → m'.handler j = sw_timer_sample_enabled.handler j) ∧
      m'.accuracy = sw_timer_sample_enabled.accuracy :=
  ⟨⟨by decide, by decide, by decide⟩,
    enable_callback_arms_slot 4294967290 sw_timer_sample_enabled 1 75 (by decide) (by decide)
      (by decide)⟩

/-! ## The dispatcher: one loop iteration -/

theorem task_arm_callback (tick : Nat) (h : sw_timer_handle) :
    (sw_timer_task_arm tick h).callback = h.callback := by
  unfold sw_timer_task_arm; split <;> rfl

theorem task_arm_context (tick : Nat) (h : sw_timer_handle) :
    (sw_timer_task_arm tick h).context = h.context := by
  unfold sw_timer_task_arm; split <;> rfl

theorem task_arm_period (tick : Nat) (h : sw_timer_handle) :
    (sw_timer_task_arm tick h).period = h.period := by
  unfold sw_timer_task_arm; split <;> rfl

theorem task_arm_used (tick : Nat) (h : sw_timer_handle) :
    (sw_timer_task_arm tick h).used = h.used := by
  unfold sw_timer_task_arm; split <;> rfl

theorem task_arm_busy (tick : Nat) (h : sw_timer_handle) :
    (sw_timer_task_arm tick h).busy = true := by
  unfold sw_timer_task_arm; split <;> rfl

theorem task_body_idle {N : Nat} (code : sw_timer_code N) (tick : Nat) (index : Fin N)
    (m : sw_timer_module N) (h : sw_timer_fires tick (m.handler index) = false) :
    sw_timer_task_body code tick index m = (m, []) := by
  unfold sw_timer_fires at h
  unfold sw_timer_task_body
  cases hu : (m.handler index).used <;> cases he : (m.handler index).callback_enable <;>
    cases hx : sw_timer_expired (m.handler index).expire_time tick <;>
    cases hb : (m.handler index).busy <;> simp_all

theorem task_body_fire {N : Nat} (code : sw_timer_code N) (tick : Nat) (index : Fin N)
    (m : sw_timer_module N) (h : sw_timer_fires tick (m.handler index) = true) :
    sw_timer_task_body code tick index m
      = ((sw_timer_task_returned code tick index m).store index
          { (sw_timer_task_returned code tick index m).handler index with busy := false },
         [{ callback := (m.handler index).callback, timer_id := (index.val : Int),
            context := (m.handler index).context, period := (m.handler index).period,
            observed := sw_timer_task_entered tick index m }]) := by
  unfold sw_timer_fires at h
  simp only [Bool.and_eq_true, beq_iff_eq] at h
  obtain ⟨⟨⟨hu, he⟩, hx⟩, hb⟩ := h
  simp only [sw_timer_task_body, hu, he, hx, hb, Bool.and_self, beq_self_eq_true, if_true,
    sw_timer_task_returned, sw_timer_task_entered, task_arm_callback, task_arm_context,
    task_arm_period]

/-- An iteration for another index leaves slot `i` alone and logs nothing for `i`,
as long as the callbacks of other timers do not write slot `i`. -/
theorem task_body_other {N : Nat} (code : sw_timer_code N) (tick : Nat) (index i : Fin N)
    (m : sw_timer_module N) (hkeep : sw_timer_others_keep code i) (hne : index ≠ i) :
    (sw_timer_task_body code tick index m).1.handler i = m.handler i ∧
      sw_timer_calls_of (sw_timer_task_body code tick index m).2 (i.val : Int) = [] := by
  have hid : (index.val : Int) ≠ (i.val : Int) := by
    intro h
    exact hne (Fin.ext (by omega))
  cases hf : sw_timer_fires tick (m.handler index) with
  | false =>
    rw [task_body_idle code tick index m hf]
    exact ⟨rfl, rfl⟩
  | true =>
    rw [task_body_fire code tick index m hf]
    refine ⟨?_, ?_⟩
    · show ((sw_timer_task_returned code tick index m).store index _).handler i = m.handler i
      rw [store_handler_other _ _ _ _ (Ne.symm hne), sw_timer_task_returned,
        hkeep _ _ _ _ _ _ hid, sw_timer_task_entered, store_handler_other _ _ _ _ (Ne.symm hne)]
    · simp [sw_timer_calls_of, hid]

/-! ## The dispatcher: the whole loop -/

theorem calls_of_append {N : Nat} (a b : List (sw_timer_call N)) (i : Int) :
    sw_timer_calls_of (a ++ b) i = sw_timer_calls_of a i ++ sw_timer_calls_of b i := by
  simp [sw_timer_calls_of]

/-- Once the loop is past index `i`, slot `i` is neither written nor invoked. -/
theorem task_from_passed {N : Nat} (code : sw_timer_code N) (tick : Nat) (i : Fin N)
    (hkeep : sw_timer_others_keep code i) :
    ∀ (fuel index : Nat) (m : sw_timer_module N), i.val < index →
      (sw_timer_task_from code tick fuel index m).1.handler i = m.handler i ∧
        sw_timer_calls_of (sw_timer_task_from code tick fuel index m).2 (i.val : Int) = [] := by
  intro fuel
  induction fuel with
  | zero => intro index m _; exact ⟨rfl, rfl⟩
  | succ fuel ih =>
    intro index m hlt
    rw [sw_timer_task_from]
    by_cases hN : index < N
    · rw [dif_pos hN]
      have hne : (⟨index, hN⟩ : Fin N) ≠ i := by
        intro h
        have := congrArg Fin.val h
        simp at this
        omega
      obtain ⟨hb1, hb2⟩ := task_body_other code tick ⟨index, hN⟩ i m hkeep hne
      obtain ⟨hr1, hr2⟩ := ih (index + 1) (sw_timer_task_body code tick ⟨index, hN⟩ m).1
        (by omega)
      refine ⟨?_, ?_⟩
      · show (sw_timer_task_from code tick fuel (index + 1) _).1.handler i = m.handler i
        rw [hr1, hb1]
      · show sw_timer_calls_of (_ ++ _) (i.val : Int) = []
        rw [calls_of_append, hb2, hr2]
        rfl
    · rw [dif_neg hN]
      exact ⟨rfl, rfl⟩

/-- A slot that does not meet the firing conditions is neither written nor
invoked by the loop, wherever the loop starts. -/
theorem task_from_quiet {N : Nat} (code : sw_timer_code N) (tick : Nat) (i : Fin N)
    (hkeep : sw_timer_others_keep code i) :
    ∀ (fuel index : Nat) (m : sw_timer_module N),
      sw_timer_fires tick (m.handler i) = false →
      (sw_timer_task_from code tick fuel index m).1.handler i = m.handler i ∧
        sw_timer_calls_of (sw_timer_task_from code tick fuel index m).2 (i.val : Int) = [] := by
  intro fuel
  induction fuel with
  | zero => intro index m _; exact ⟨rfl, rfl⟩
  | succ fuel ih =>
    intro index m hq
    rw [sw_timer_task_from]
    by_cases hN : index < N
    · rw [dif_pos hN]
      have hstep : (sw_timer_task_body code tick ⟨index, hN⟩ m).1.handler i = m.handler i ∧
          sw_timer_calls_of (sw_timer_task_body code tick ⟨index, hN⟩ m).2 (i.val : Int)
            = [] := by
        by_cases hi : (⟨index, hN⟩ : Fin N) = i
        · rw [hi, task_body_idle code tick i m hq]
          exact ⟨rfl, rfl⟩
        · exact task_body_other code tick ⟨index, hN⟩ i m hkeep hi
      obtain ⟨hb1, hb2⟩ := hstep
      obtain ⟨hr1, hr2⟩ := ih (index + 1) (sw_timer_task_body code tick ⟨index, hN⟩ m).1
        (by rw [hb1]; exact hq)
      refine ⟨?_, ?_⟩
      · show (sw_timer_task_from code tick fuel (index + 1) _).1.handler i = m.handler i
        rw [hr1, hb1]
      · show sw_timer_calls_of (_ ++ _) (i.val : Int) = []
        rw [calls_of_append, hb2, hr2]
        rfl
    · rw [dif_neg hN]
      exact ⟨rfl, rfl⟩

/-- A slot that meets the firing conditions when the loop has not yet reached
it is invoked exactly once: `mi` is the module on arrival at index `i`, whose
slot `i` is still as in `m`; the single invocation for `i` is handed the armed
module, and the slot ends as the callback left it, with `busy` cleared. -/
theorem task_from_fires {N : Nat} (code : sw_timer_code N) (tick : Nat) (i : Fin N)
    (hkeep : sw_timer_others_keep code i) :
    ∀ (fuel index : Nat) (m : sw_timer_module N),
      sw_timer_fires tick (m.handler i) = true → index ≤ i.val → i.val < index + fuel →
      ∃ mi : sw_timer_module N, mi.handler i = m.handler i ∧
        sw_timer_calls_of (sw_timer_task_from code tick fuel index m).2 (i.val : Int)
          = [{ callback := (mi.handler i).callback, timer_id := (i.val : Int),
               context := (mi.handler i).context, period := (mi.handler i).period,
               observed := sw_timer_task_entered tick i mi }] ∧
        (sw_timer_task_from code tick fuel index m).1.handler i
          = { (sw_timer_task_returned code tick i mi).handler i with busy := false } := by
  intro fuel
  induction fuel with
  | zero => intro index m _ h1 h2; omega
  | succ fuel ih =>
    intro index m hf h1 h2
    have hN : index < N := lt_of_le_of_lt h1 i.isLt
    rw [sw_timer_task_from, dif_pos hN]
    by_cases hi : (⟨index, hN⟩ : Fin N) = i
    · have hidx : index = i.val := by rw [← hi]
      rw [hi]
      obtain ⟨hr1, hr2⟩ := task_from_passed code tick i hkeep fuel (index + 1)
        (sw_timer_task_body code tick i m).1 (by omega)
      refine ⟨m, rfl, ?_, ?_⟩
      · show sw_timer_calls_of (_ ++ _) (i.val : Int) = _
        rw [calls_of_append, hr2, task_body_fire code tick i m hf]
        simp [sw_timer_calls_of]
      · show (sw_timer_task_from code tick fuel (index + 1) _).1.handler i = _
        rw [hr1, task_body_fire code tick i m hf]
        exact store_handler_same _ _ _
    · have hlt : index < i.val := by
        rcases Nat.lt_or_ge index i.val with h | h
        · exact h
        · exact absurd (Fin.ext (by show index = i.val; omega)) hi
      obtain ⟨hb1, hb2⟩ := task_body_other code tick ⟨index, hN⟩ i m hkeep hi
      obtain ⟨mi, hmi, hc, hfin⟩ := ih (index + 1)
        (sw_timer_task_body code tick ⟨index, hN⟩ m).1 (by rw [hb1]; exact hf)
        (by omega) (by omega)
      refine ⟨mi, hmi.trans hb1, ?_, ?_⟩
      · show sw_timer_calls_of (_ ++ _) (i.val : Int) = _
        rw [calls_of_append, hb2, hc]
        rfl
      · exact hfin

/-- One pass leaves a slot that does not meet the firing conditions unwritten
and uninvoked. -/
theorem task_quiet {N : Nat} (code : sw_timer_code N) (tick : Nat) (i : Fin N)
    (m : sw_timer_module N) (hkeep : sw_timer_others_keep code i)
    (hq : sw_timer_fires tick (m.handler i) = false) :
    (sw_timer_task code tick m).1.handler i = m.handler i ∧
      sw_timer_calls_of (sw_timer_task code tick m).2 (i.val : Int) = [] :=
  task_from_quiet code tick i hkeep N 0 m hq

/-- One pass invokes a slot that meets the firing conditions exactly once. -/
theorem task_fires {N : Nat} (code : sw_timer_code N) (tick : Nat) (i : Fin N)
    (m : sw_timer_module N) (hkeep : sw_timer_others_keep code i)
    (hf : sw_timer_fires tick (m.handler i) = true) :
    ∃ mi : sw_timer_module N, mi.handler i = m.handler i ∧
      sw_timer_calls_of (sw_timer_task code tick m).2 (i.val : Int)
        = [{ callback := (mi.handler i).callback, timer_id := (i.val : Int),
             context := (mi.handler i).context, period := (mi.handler i).period,
             observed := sw_timer_task_entered tick i mi }] ∧
      (sw_timer_task code tick m).1.handler i
        = { (sw_timer_task_returned code tick i mi).handler i with busy := false } :=
  task_from_fires code tick i hkeep N 0 m hf (Nat.zero_le _) (by have := i.isLt; omega)

/-- A sequence of passes, none of which finds slot `i` meeting the firing
conditions, leaves the slot unwritten and uninvoked. -/
theorem task_seq_quiet {N : Nat} (code : sw_timer_code N) (i : Fin N)
    (hkeep : sw_timer_others_keep code i) :
    ∀ (ticks : List Nat) (m : sw_timer_module N),
      (∀ tick ∈ ticks, sw_timer_fires tick (m.handler i) = false) →
      (sw_timer_task_seq code ticks m).1.handler i = m.handler i ∧
        sw_timer_calls_of (sw_timer_task_seq code ticks m).2 (i.val : Int) = [] := by
  intro ticks
  induction ticks with
  | nil => intro m _; exact ⟨rfl, rfl⟩
  | cons tick ticks ih =>
    intro m hq
    obtain ⟨h1, h2⟩ := task_quiet code tick i m hkeep (hq tick (List.mem_cons_self _ _))
    obtain ⟨hr1, hr2⟩ := ih (sw_timer_task code tick m).1
      (fun t ht => by rw [h1]; exact hq t (List.mem_cons_of_mem _ ht))
    refine ⟨?_, ?_⟩
    · show (sw_timer_task_seq code ticks _).1.handler i = m.handler i
      rw [hr1, h1]
    · show sw_timer_calls_of (_ ++ _) (i.val : Int) = []
      rw [calls_of_append, h2, hr2]
      rfl

/-! ## The expiry test -/

theorem expired_iff (e tick : Nat) :
    sw_timer_expired e tick = true ↔ 2147483648 ≤ u32_sub e tick := by
  have hlt : u32_sub e tick < 4294967296 := Nat.mod_lt _ (by norm_num)
  unfold sw_timer_expired int32_of_u32
  rw [decide_eq_true_iff, Nat.mod_eq_of_lt hlt]
  split <;> omega

theorem expired_behind (e d : Nat) (hd : d < 2147483648) :
    sw_timer_expired e ((e + (4294967296 - d)) % 4294967296) = false := by
  rw [Bool.eq_false_iff, Ne, expired_iff]
  unfold u32_sub
  omega

theorem expired_ahead (e d : Nat) (h1 : 1 ≤ d) (h2 : d ≤ 2147483648) :
    sw_timer_expired e ((e + d) % 4294967296) = true := by
  rw [expired_iff]
  unfold u32_sub
  omega

theorem expired_armed_early (t0 D k : Nat) (hD : D < 2147483648) (hk : k ≤ D) :
    sw_timer_expired ((t0 + D) % 4294967296) ((t0 + k) % 4294967296) = false := by
  rw [Bool.eq_false_iff, Ne, expired_iff]
  unfold u32_sub
  omega

theorem expired_armed_late (t0 D d : Nat) (h1 : 1 ≤ d) (h2 : d ≤ 2147483648) :
    sw_timer_expired ((t0 + D) % 4294967296) ((t0 + D + d) % 4294967296) = true := by
  rw [expired_iff]
  unfold u32_sub
  omega

theorem fires_eq_expired (tick : Nat) (h : sw_timer_handle) (hused : h.used = true)
    (hen : h.callback_enable = true) (hbusy : h.busy = false) :
    sw_timer_fires tick h = sw_timer_expired h.expire_time tick := by
  simp [sw_timer_fires, hused, hen, hbusy]

theorem code_idle_others_keep (N : Nat) (i : Fin N) :
    sw_timer_others_keep (sw_timer_code_idle N) i :=
  fun _ _ _ _ _ _ _ => rfl

/-- Claim C5. For a used, enabled, non-busy slot `i` (whose expire time is `e`),
one pass of `sw_timer_task` at tick value `tick` invokes the callback of `i`
(once) exactly when `(e - tick) mod 2^32`, read as a signed 32-bit integer, is
negative, and makes no invocation for `i` exactly when it is non-negative
(callbacks of other timers are assumed not to write slot `i`). Consequently,
for every `e`: at tick `e - d (mod 2^32)` with `0 <= d < 2^31` the callback is
not invoked, and at tick `e + d (mod 2^32)` with `1 <= d <= 2^31` it is. -/
theorem task_due_iff_signed_difference_negative {N : Nat} (code : sw_timer_code N)
    (i : Fin N) (m : sw_timer_module N) (hkeep : sw_timer_others_keep code i)
    (hused : (m.handler i).used = true) (hen : (m.handler i).callback_enable = true)
    (hbusy : (m.handler i).busy = false) :
    (∀ tick : Nat,
      ((sw_timer_calls_of (sw_timer_task code tick m).2 (i.val : Int)).length = 1 ↔
        int32_of_u32 (u32_sub (m.handler i).expire_time tick) < 0) ∧
      (sw_timer_calls_of (sw_timer_task code tick m).2 (i.val : Int) = [] ↔
        0 ≤ int32_of_u32 (u32_sub (m.handler i).expire_time tick))) ∧
    (∀ d : Nat, d < 2147483648 →
      sw_timer_calls_of
        (sw_timer_task code (((m.handler i).expire_time + (4294967296 - d)) % 4294967296) m).2
        (i.val : Int) = []) ∧
    (∀ d : Nat, 1 ≤ d → d ≤ 2147483648 →
      (sw_timer_calls_of
        (sw_timer_task code (((m.handler i).expire_time + d) % 4294967296) m).2
        (i.val : Int)).length = 1) := by
  have hcase : ∀ tick : Nat,
      (sw_timer_expired (m.handler i).expire_time tick = true ∧
        (sw_timer_calls_of (sw_timer_task code tick m).2 (i.val : Int)).length = 1) ∨
      (sw_timer_expired (m.handler i).expire_time tick = false ∧
        sw_timer_calls_of (sw_timer_task code tick m).2 (i.val : Int) = []) := by
    intro tick
    cases hx : sw_timer_expired (m.handler i).expire_time tick with
    | true =>
      left
      obtain ⟨mi, _, hc, _⟩ := task_fires code tick i m hkeep
        (by rw [fires_eq_expired tick _ hused hen hbusy]; exact hx)
      exact ⟨rfl, by rw [hc]; rfl⟩
    | false =>
      right
      exact ⟨rfl, (task_quiet code tick i m hkeep
        (by rw [fires_eq_expired tick _ hused hen hbusy]; exact hx)).2⟩
  have hsign : ∀ tick : Nat, sw_timer_expired (m.handler i).expire_time tick = true ↔
      int32_of_u32 (u32_sub (m.handler i).expire_time tick) < 0 := by
    intro tick
    simp [sw_timer_expired]
  refine ⟨?_, ?_, ?_⟩
  · intro tick
    rcases hcase tick with ⟨hx, hl⟩ | ⟨hx, hl⟩
    · have hneg := (hsign tick).1 hx
      refine ⟨⟨fun _ => hneg, fun _ => hl⟩, ⟨fun h => ?_, fun h => ?_⟩⟩
      · rw [h] at hl; simp at hl
      · omega
    · have hnn : ¬ int32_of_u32 (u32_sub (m.handler i).expire_time tick) < 0 := by
        rw [← hsign tick, hx]; simp
      refine ⟨⟨fun h => ?_, fun h => absurd h hnn⟩, ⟨fun _ => by omega, fun _ => hl⟩⟩
      rw [hl] at h; simp at h
  · intro d hd
    rcases hcase (((m.handler i).expire_time + (4294967296 - d)) % 4294967296)
      with ⟨hx, _⟩ | ⟨_, hl⟩
    · rw [expired_behind _ d hd] at hx; simp at hx
    · exact hl
  · intro d h1 h2
    rcases hcase (((m.handler i).expire_time + d) % 4294967296) with ⟨_, hl⟩ | ⟨hx, _⟩
    · exact hl
    · rw [expired_ahead _ d h1 h2] at hx; simp at hx

theorem task_due_iff_signed_difference_negative_witness :
    ((sw_timer_sample_near_wrap.handler 1).used = true ∧
      (sw_timer_sample_near_wrap.handler 1).callback_enable = true ∧
      (sw_timer_sample_near_wrap.handler 1).busy = false) ∧
    ((∀ tick : Nat,
      ((sw_timer_calls_of (sw_timer_task (sw_timer_code_idle 2) tick
          sw_timer_sample_near_wrap).2 (((1 : Fin 2).val : Nat) : Int)).length = 1 ↔
        int32_of_u32 (u32_sub (sw_timer_sample_near_wrap.handler 1).expire_time tick) < 0) ∧
      (sw_timer_calls_of (sw_timer_task (sw_timer_code_idle 2) tick
          sw_timer_sample_near_wrap).2 (((1 : Fin 2).val : Nat) : Int) = [] ↔
        0 ≤ int32_of_u32 (u32_sub (sw_timer_sample_near_wrap.handler 1).expire_time tick))) ∧
    (∀ d : Nat, d < 2147483648 →
      sw_timer_calls_of
        (sw_timer_task (sw_timer_code_idle 2)
          (((sw_timer_sample_near_wrap.handler 1).expire_time + (4294967296 - d))
            % 4294967296) sw_timer_sample_near_wrap).2
        (((1 : Fin 2).val : Nat) : Int) = []) ∧
    (∀ d : Nat, 1 ≤ d → d ≤ 2147483648 →
      (sw_timer_calls_of
        (sw_timer_task (sw_timer_code_idle 2)
          (((sw_timer_sample_near_wrap.handler 1).expire_time + d) % 4294967296)
          sw_timer_sample_near_wrap).2
        (((1 : Fin 2).val : Nat) : Int)).length = 1)) :=
  ⟨⟨by decide, by decide, by decide⟩,
    task_due_iff_signed_difference_negative (sw_timer_code_idle 2) 1 sw_timer_sample_near_wrap
      (code_idle_others_keep 2 1) (by decide) (by decide) (by decide)⟩

/-- Claim C6, as stated, fails. The scenario of the claim, started at tick 1000:
accuracy 10, `register(cb, ctx, 100)` returns 0, `enable(0, 50)` sets
`expire_time = 1000 + 5`; the pass made when the counter has reached 1005
(after exactly 5 ticks) invokes nothing, because the signed difference is 0 and
not negative. The pass one tick later makes the invocation. -/
theorem task_at_expire_time_invokes_nothing :
    ∃ m1 m2 : sw_timer_module 2,
      sw_timer_register_callback (sw_timer_blank 2 10) 7 8 100 = .ok (0, m1) ∧
      sw_timer_enable_callback 1000 m1 0 50 = .ok m2 ∧
      (m2.handler 0).expire_time = 1000 + 5 ∧
      (sw_timer_task (sw_timer_code_idle 2) (1000 + 5) m2).2.length = 0 ∧
      (sw_timer_task (sw_timer_code_idle 2) (1000 + 6) m2).2.length = 1 :=
  ⟨_, _, rfl, rfl, by decide, by decide, by decide⟩

/-- Claim C6, amended. For accuracy > 0 and a registered, non-busy timer `i` armed
by `enable(i, delay_ms)` at tick `t0` with `D = delay_ms / accuracy < 2^31`
(callbacks of other timers not writing slot `i`): passes made while the tick
counter is at `t0 + k` with `k <= D` (so also the pass made when the counter has
just reached `t0 + D`) do not invoke its callback, and the pass made at tick
`t0 + D + 1` invokes it exactly once, with the registered callback, context and
period. -/
theorem task_fires_one_tick_after_expire_time {N : Nat} (code : sw_timer_code N)
    (m : sw_timer_module N) (i : Fin N) (delay_ms t0 : Nat) (hacc : 0 < m.accuracy)
    (hused : (m.handler i).used = true) (hbusy : (m.handler i).busy = false)
    (hD : delay_ms / m.accuracy < 2147483648) (hkeep : sw_timer_others_keep code i) :
    ∃ m1 : sw_timer_module N,
      sw_timer_enable_callback t0 m (i.val : Int) delay_ms = .ok m1 ∧
      (m1.handler i).expire_time = (t0 + delay_ms / m.accuracy) % 4294967296 ∧
      ∀ ticks : List Nat,
        (∀ tick ∈ ticks, ∃ k : Nat, k ≤ delay_ms / m.accuracy ∧
          tick = (t0 + k) % 4294967296) →
        sw_timer_calls_of (sw_timer_task_seq code ticks m1).2 (i.val : Int) = [] ∧
        ∃ c : sw_timer_call N,
          sw_timer_calls_of
            (sw_timer_task code ((t0 + delay_ms / m.accuracy + 1) % 4294967296)
              (sw_timer_task_seq code ticks m1).1).2 (i.val : Int) = [c] ∧
          c.callback = (m.handler i).callback ∧ c.timer_id = (i.val : Int) ∧
          c.context = (m.handler i).context ∧ c.period = (m.handler i).period := by
  refine ⟨_, enable_callback_ok t0 m i delay_ms (by omega), by simp [store_handler_same], ?_⟩
  intro ticks hticks
  have hfe : ∀ tick : Nat,
      sw_timer_fires tick
        { m.handler i with
          callback_enable := true
          expire_time := (t0 + delay_ms / m.accuracy) % 4294967296 }
        = sw_timer_expired ((t0 + delay_ms / m.accuracy) % 4294967296) tick :=
    fun tick => fires_eq_expired tick _ hused rfl hbusy
  have hq := task_seq_quiet code i hkeep ticks
    (m.store i
      { m.handler i with
        callback_enable := true
        expire_time := (t0 + delay_ms / m.accuracy) % 4294967296 })
    (by
      intro tick htick
      obtain ⟨k, hk, rfl⟩ := hticks tick htick
      rw [store_handler_same, hfe]
      exact expired_armed_early t0 _ k hD hk)
  obtain ⟨hq1, hq2⟩ := hq
  refine ⟨hq2, ?_⟩
  obtain ⟨mi, hmi, hc, _⟩ := task_fires code
    ((t0 + delay_ms / m.accuracy + 1) % 4294967296) i _ hkeep
    (by
      rw [hq1, store_handler_same, hfe]
      exact expired_armed_late t0 _ 1 (le_refl _) (by norm_num))
  refine ⟨_, hc, ?_, rfl, ?_, ?_⟩
  · show (mi.handler i).callback = _
    rw [hmi, hq1, store_handler_same]
  · show (mi.handler i).context = _
    rw [hmi, hq1, store_handler_same]
  · show (mi.handler i).period = _
    rw [hmi, hq1, store_handler_same]

theorem task_fires_one_tick_after_expire_time_witness :
    (0 < sw_timer_sample_registered.accuracy ∧
      (sw_timer_sample_registered.handler 0).used = true ∧
      (sw_timer_sample_registered.handler 0).busy = false ∧
      50 / sw_timer_sample_registered.accuracy < 2147483648) ∧
    ∃ m1 : sw_timer_module 2,
      sw_timer_enable_callback 1000 sw_timer_sample_registered
        (((0 : Fin 2).val : Nat) : Int) 50 = .ok m1 ∧
      (m1.handler 0).expire_time
        = (1000 + 50 / sw_timer_sample_registered.accuracy) % 4294967296 ∧
      ∀ ticks : List Nat,
        (∀ tick ∈ ticks, ∃ k : Nat, k ≤ 50 / sw_timer_sample_registered.accuracy ∧
          tick = (1000 + k) % 4294967296) →
        sw_timer_calls_of (sw_timer_task_seq (sw_timer_code_idle 2) ticks m1).2
          (((0 : Fin 2).val : Nat) : Int) = [] ∧
        ∃ c : sw_timer_call 2,
          sw_timer_calls_of
            (sw_timer_task (sw_timer_code_idle 2)
              ((1000 + 50 / sw_timer_sample_registered.accuracy + 1) % 4294967296)
              (sw_timer_task_seq (sw_timer_code_idle 2) ticks m1).1).2
            (((0 : Fin 2).val : Nat) : Int) = [c] ∧
          c.callback = (sw_timer_sample_registered.handler 0).callback ∧
          c.timer_id = (((0 : Fin 2).val : Nat) : Int) ∧
          c.context = (sw_timer_sample_registered.handler 0).context ∧
          c.period = (sw_timer_sample_registered.handler 0).period :=
  ⟨⟨by decide, by decide, by decide, by decide⟩,
    task_fires_one_tick_after_expire_time (sw_timer_code_idle 2) sw_timer_sample_registered 0
      50 1000 (by decide) (by decide) (by decide) (by decide) (code_idle_others_keep 2 0)⟩

/-- Claim C7, as stated, fails. A periodic slot with `expire_time = 100` and
`period = 10` that is fired by a pass at tick 105 gets `expire_time = 115`
(tick + period), not 110 (previous expire time + period); fired at tick 101
instead it gets 111, so the new value depends on the tick of the pass. -/
theorem task_rearms_from_tick_of_pass :
    (sw_timer_sample_periodic.handler 0).expire_time = 100 ∧
    (sw_timer_sample_periodic.handler 0).period = 10 ∧
    (sw_timer_task (sw_timer_code_idle 2) 105 sw_timer_sample_periodic).2.length = 1 ∧
    ((sw_timer_task (sw_timer_code_idle 2) 105 sw_timer_sample_periodic).1.handler 0).expire_time
      = 115 ∧
    ((sw_timer_task (sw_timer_code_idle 2) 105 sw_timer_sample_periodic).1.handler 0).expire_time
      ≠ ((sw_timer_sample_periodic.handler 0).expire_time
          + (sw_timer_sample_periodic.handler 0).period) % 4294967296 ∧
    ((sw_timer_task (sw_timer_code_idle 2) 101 sw_timer_sample_periodic).1.handler 0).expire_time
      = 111 := by
  decide

/-- Claim C7, amended. Whenever a pass at tick value `tick` fires a slot with
`period > 0`, the expire time the callback observes, and the expire time of the
slot after the pass when the callback does not write its own slot, is
`(tick + period) mod 2^32`, whatever the previous expire time was; the other
fields of the slot are as before. Hence a pass made `L` ticks after the
previous expire time moves the next expiry to previous expire time + period +
`L`: the lateness of the pass is carried into the following expirations. -/
theorem task_periodic_rearms_from_tick {N : Nat} (code : sw_timer_code N) (tick : Nat)
    (i : Fin N) (m : sw_timer_module N) (hkeep : sw_timer_others_keep code i)
    (hf : sw_timer_fires tick (m.handler i) = true) (hper : 0 < (m.handler i).period)
    (hself : ∀ m' : sw_timer_module N,
      (code (m.handler i).callback tick m' (i.val : Int) (m.handler i).context
        (m.handler i).period).handler i = m'.handler i) :
    (∃ c : sw_timer_call N,
      sw_timer_calls_of (sw_timer_task code tick m).2 (i.val : Int) = [c] ∧
      (c.observed.handler i).expire_time = (tick + (m.handler i).period) % 4294967296) ∧
    (sw_timer_task code tick m).1.handler i
      = { m.handler i with
          expire_time := (tick + (m.handler i).period) % 4294967296 } ∧
    (∀ L : Nat, tick = ((m.handler i).expire_time + L) % 4294967296 →
      ((sw_timer_task code tick m).1.handler i).expire_time
        = ((m.handler i).expire_time + (m.handler i).period + L) % 4294967296) := by
  obtain ⟨mi, hmi, hc, hfin⟩ := task_fires code tick i m hkeep hf
  have harm : sw_timer_task_arm tick (m.handler i)
      = { m.handler i with
          busy := true
          expire_time := (tick + (m.handler i).period) % 4294967296 } := by
    rw [sw_timer_task_arm, if_pos hper]
  have hbusy : (m.handler i).busy = false := by
    unfold sw_timer_fires at hf
    simp only [Bool.and_eq_true, beq_iff_eq] at hf
    exact hf.2
  have hend : (sw_timer_task code tick m).1.handler i
      = { m.handler i with
          expire_time := (tick + (m.handler i).period) % 4294967296 } := by
    rw [hfin, sw_timer_task_returned, hmi, hself, sw_timer_task_entered, store_handler_same,
      hmi, harm]
    cases hh : m.handler i
    rw [hh] at hbusy
    simp only at hbusy
    simp [hbusy]
  refine ⟨⟨_, hc, ?_⟩, hend, ?_⟩
  · show ((sw_timer_task_entered tick i mi).handler i).expire_time = _
    rw [sw_timer_task_entered, store_handler_same, hmi, harm]
  · intro L hL
    rw [hend]
    show (tick + (m.handler i).period) % 4294967296 = _
    omega

theorem task_periodic_rearms_from_tick_witness :
    (sw_timer_fires 105 (sw_timer_sample_periodic.handler 0) = true ∧
      0 < (sw_timer_sample_periodic.handler 0).period) ∧
    ((∃ c : sw_timer_call 2,
      sw_timer_calls_of (sw_timer_task (sw_timer_code_idle 2) 105 sw_timer_sample_periodic).2
        (((0 : Fin 2).val : Nat) : Int) = [c] ∧
      (c.observed.handler 0).expire_time
        = (105 + (sw_timer_sample_periodic.handler 0).period) % 4294967296) ∧
    (sw_timer_task (sw_timer_code_idle 2) 105 sw_timer_sample_periodic).1.handler 0
      = { sw_timer_sample_periodic.handler 0 with
          expire_time := (105 + (sw_timer_sample_periodic.handler 0).period) % 4294967296 } ∧
    (∀ L : Nat, 105 = ((sw_timer_sample_periodic.handler 0).expire_time + L) % 4294967296 →
      ((sw_timer_task (sw_timer_code_idle 2) 105 sw_timer_sample_periodic).1.handler 0).expire_time
        = ((sw_timer_sample_periodic.handler 0).expire_time
            + (sw_timer_sample_periodic.handler 0).period + L) % 4294967296)) :=
  ⟨⟨by decide, by decide⟩,
    task_periodic_rearms_from_tick (sw_timer_code_idle 2) 105 0 sw_timer_sample_periodic
      (code_idle_others_keep 2 0) (by decide) (by decide) (fun _ => rfl)⟩

theorem code_rearm_others_keep (N delay : Nat) (i : Fin N) :
    sw_timer_others_keep (sw_timer_code_rearm N delay) i := by
  intro p tick m id context period hid
  have hne : ∀ h : 0 ≤ id ∧ id < (N : Int), i ≠ ⟨id.toNat, by omega⟩ := by
    intro h heq
    have := congrArg Fin.val heq
    simp at this
    apply hid
    omega
  unfold sw_timer_code_rearm sw_timer_enable_callback
  split
  · rename_i m' heq
    split at heq
    · rename_i hr
      split at heq
      · cases heq
      · cases heq
        exact store_handler_other _ _ _ _ (hne hr)
    · cases heq
  · rfl

/-- Claim C8. When a pass fires a slot `i` with `period = 0` (callbacks of other
timers not writing slot `i`), there is exactly one invocation for `i`; in the
module it observes, slot `i` already has `callback_enable = 0` (and `busy = 1`);
after the pass the slot is exactly what the callback left, with only `busy`
cleared, so the dispatcher does not write `callback_enable` after the callback
returns. If the callback leaves the module alone, the slot ends disabled and no
later sequence of passes, at any tick values, invokes it; if the callback does
on the observed module what `sw_timer_enable_callback(i, delay)` does, the slot
ends enabled with the expire time the callback computed. -/
theorem task_one_shot_disabled_before_callback {N : Nat} (code : sw_timer_code N)
    (tick : Nat) (i : Fin N) (m : sw_timer_module N) (hkeep : sw_timer_others_keep code i)
    (hf : sw_timer_fires tick (m.handler i) = true) (hper : (m.handler i).period = 0) :
    ∃ c : sw_timer_call N,
      sw_timer_calls_of (sw_timer_task code tick m).2 (i.val : Int) = [c] ∧
      c.callback = (m.handler i).callback ∧ c.timer_id = (i.val : Int) ∧
      c.context = (m.handler i).context ∧ c.period = 0 ∧
      (c.observed.handler i).callback_enable = false ∧
      (c.observed.handler i).busy = true ∧
      (sw_timer_task code tick m).1.handler i
        = { (code c.callback tick c.observed c.timer_id c.context c.period).handler i with
            busy := false } ∧
      (code c.callback tick c.observed c.timer_id c.context c.period = c.observed →
        ((sw_timer_task code tick m).1.handler i).callback_enable = false ∧
        ∀ ticks : List Nat,
          sw_timer_calls_of (sw_timer_task_seq code ticks (sw_timer_task code tick m).1).2
            (i.val : Int) = []) ∧
      (∀ delay : Nat,
        sw_timer_enable_callback tick c.observed (i.val : Int) delay
          = .ok (code c.callback tick c.observed c.timer_id c.context c.period) →
        ((sw_timer_task code tick m).1.handler i).callback_enable = true ∧
        ((sw_timer_task code tick m).1.handler i).expire_time
          = (tick + delay / c.observed.accuracy) % 4294967296) := by
  obtain ⟨mi, hmi, hc, hfin⟩ := task_fires code tick i m hkeep hf
  have harm : sw_timer_task_arm tick (m.handler i)
      = { m.handler i with busy := true, callback_enable := false } := by
    rw [sw_timer_task_arm, if_neg (by omega)]
  have hobs : (sw_timer_task_entered tick i mi).handler i
      = { m.handler i with busy := true, callback_enable := false } := by
    rw [sw_timer_task_entered, store_handler_same, hmi, harm]
  refine ⟨_, hc, ?_, rfl, ?_, ?_, ?_, ?_, ?_, ?_, ?_⟩
  · show (mi.handler i).callback = _
    rw [hmi]
  · show (mi.handler i).context = _
    rw [hmi]
  · show (mi.handler i).period = 0
    rw [hmi, hper]
  · show ((sw_timer_task_entered tick i mi).handler i).callback_enable = false
    rw [hobs]
  · show ((sw_timer_task_entered tick i mi).handler i).busy = true
    rw [hobs]
  · rw [hfin, sw_timer_task_returned]
  · intro hidle
    have hidle2 : sw_timer_task_returned code tick i mi = sw_timer_task_entered tick i mi :=
      hidle
    have hoff : ((sw_timer_task code tick m).1.handler i).callback_enable = false := by
      rw [hfin, hidle2, hobs]
    refine ⟨hoff, fun ticks => ?_⟩
    exact (task_seq_quiet code i hkeep ticks _
      (fun t _ => by simp [sw_timer_fires, hoff])).2
  · intro delay hen
    have hacc : (sw_timer_task_entered tick i mi).accuracy ≠ 0 := by
      intro h0
      have hbad : sw_timer_enable_callback tick (sw_timer_task_entered tick i mi)
          (i.val : Int) delay = .error sw_timer_fault.division_by_zero := by
        have hr : 0 ≤ (i.val : Int) ∧ (i.val : Int) < (N : Int) := by
          have := i.isLt; omega
        simp [sw_timer_enable_callback, hr, h0]
      have hen2 : sw_timer_enable_callback tick (sw_timer_task_entered tick i mi)
          (i.val : Int) delay = .ok (sw_timer_task_returned code tick i mi) := hen
      rw [hbad] at hen2
      cases hen2
    have hok := enable_callback_ok tick (sw_timer_task_entered tick i mi) i delay hacc
    have hen2 : sw_timer_enable_callback tick (sw_timer_task_entered tick i mi)
        (i.val : Int) delay = .ok (sw_timer_task_returned code tick i mi) := hen
    rw [hok] at hen2
    have hret : sw_timer_task_returned code tick i mi = _ := (Except.ok.inj hen2).symm
    rw [hfin, hret, store_handler_same]
    exact ⟨rfl, rfl⟩

theorem task_one_shot_disabled_before_callback_witness :
    (sw_timer_fires 101 (sw_timer_sample_one_shot.handler 1) = true ∧
      (sw_timer_sample_one_shot.handler 1).period = 0) ∧
    ∃ c : sw_timer_call 2,
      sw_timer_calls_of
        (sw_timer_task (sw_timer_code_rearm 2 30) 101 sw_timer_sample_one_shot).2
        (((1 : Fin 2).val : Nat) : Int) = [c] ∧
      c.callback = (sw_timer_sample_one_shot.handler 1).callback ∧
      c.timer_id = (((1 : Fin 2).val : Nat) : Int) ∧
      c.context = (sw_timer_sample_one_shot.handler 1).context ∧ c.period = 0 ∧
      (c.observed.handler 1).callback_enable = false ∧
      (c.observed.handler 1).busy = true ∧
      (sw_timer_task (sw_timer_code_rearm 2 30) 101 sw_timer_sample_one_shot).1.handler 1
        = { (sw_timer_code_rearm 2 30 c.callback 101 c.observed c.timer_id c.context
              c.period).handler 1 with busy := false } ∧
      (sw_timer_code_rearm 2 30 c.callback 101 c.observed c.timer_id c.context c.period
          = c.observed →
        ((sw_timer_task (sw_timer_code_rearm 2 30) 101
          sw_timer_sample_one_shot).1.handler 1).callback_enable = false ∧
        ∀ ticks : List Nat,
          sw_timer_calls_of
            (sw_timer_task_seq (sw_timer_code_rearm 2 30) ticks
              (sw_timer_task (sw_timer_code_rearm 2 30) 101 sw_timer_sample_one_shot).1).2
            (((1 : Fin 2).val : Nat) : Int) = []) ∧
      (∀ delay : Nat,
        sw_timer_enable_callback 101 c.observed (((1 : Fin 2).val : Nat) : Int) delay
          = .ok (sw_timer_code_rearm 2 30 c.callback 101 c.observed c.timer_id c.context
              c.period) →
        ((sw_timer_task (sw_timer_code_rearm 2 30) 101
          sw_timer_sample_one_shot).1.handler 1).callback_enable = true ∧
        ((sw_timer_task (sw_timer_code_rearm 2 30) 101
          sw_timer_sample_one_shot).1.handler 1).expire_time
          = (101 + delay / c.observed.accuracy) % 4294967296) :=
  ⟨⟨by decide, by decide⟩,
    task_one_shot_disabled_before_callback (sw_timer_code_rearm 2 30) 101 1
      sw_timer_sample_one_shot
      (code_rearm_others_keep 2 30 1)
      (by decide) (by decide)⟩

/-- The two endings of a one-shot firing, evaluated on the sample module at
tick 101: with idle callbacks slot 1 ends disabled; with callbacks that call
`sw_timer_enable_callback(id, 30)` it ends enabled with expire time 101 + 3. -/
theorem task_one_shot_endings :
    ((sw_timer_task (sw_timer_code_idle 2) 101 sw_timer_sample_one_shot).1.handler 1)
      = { sw_timer_sample_one_shot.handler 1 with callback_enable := false } ∧
    (sw_timer_task_seq (sw_timer_code_idle 2) [101, 102, 5000]
      sw_timer_sample_one_shot).2.length = 1 ∧
    ((sw_timer_task (sw_timer_code_rearm 2 30) 101 sw_timer_sample_one_shot).1.handler 1)
      = { sw_timer_sample_one_shot.handler 1 with
          callback_enable := true, expire_time := 104 } := by
  decide

/-- Claim C9. With callbacks of other timers not writing slot `i`: for every
module state and tick value, a pass over a slot that is unused, or disabled, or
not expired at that tick, or busy, makes no invocation for `i` and leaves every
field of slot `i` as it was. In particular, after `sw_timer_disable_callback(i)`
or `sw_timer_unregister_callback(i)` no sequence of passes, at any tick values,
makes an invocation for `i`, whatever the stored expire time is. -/
theorem task_leaves_inactive_slot_alone {N : Nat} (code : sw_timer_code N) (i : Fin N)
    (hkeep : sw_timer_others_keep code i) :
    (∀ (tick : Nat) (m : sw_timer_module N),
      ((m.handler i).used = false ∨ (m.handler i).callback_enable = false ∨
        sw_timer_expired (m.handler i).expire_time tick = false ∨
        (m.handler i).busy = true) →
      (sw_timer_task code tick m).1.handler i = m.handler i ∧
        sw_timer_calls_of (sw_timer_task code tick m).2 (i.val : Int) = []) ∧
    (∀ (ticks : List Nat) (m : sw_timer_module N),
      ∃ m' : sw_timer_module N,
        sw_timer_disable_callback m (i.val : Int) = .ok m' ∧
        sw_timer_calls_of (sw_timer_task_seq code ticks m').2 (i.val : Int) = [] ∧
        (sw_timer_task_seq code ticks m').1.handler i = m'.handler i) ∧
    (∀ (ticks : List Nat) (m : sw_timer_module N),
      ∃ m' : sw_timer_module N,
        sw_timer_unregister_callback m (i.val : Int) = .ok m' ∧
        sw_timer_calls_of (sw_timer_task_seq code ticks m').2 (i.val : Int) = [] ∧
        (sw_timer_task_seq code ticks m').1.handler i = m'.handler i) := by
  refine ⟨?_, ?_, ?_⟩
  · intro tick m hcond
    apply task_quiet code tick i m hkeep
    unfold sw_timer_fires
    rcases hcond with h | h | h | h <;> simp [h]
  · intro ticks m
    refine ⟨_, disable_callback_ok m i, ?_⟩
    have h := task_seq_quiet code i hkeep ticks
      (m.store i { m.handler i with callback_enable := false })
      (fun t _ => by rw [store_handler_same]; simp [sw_timer_fires])
    exact ⟨h.2, h.1⟩
  · intro ticks m
    refine ⟨_, unregister_callback_ok m i, ?_⟩
    have h := task_seq_quiet code i hkeep ticks
      (m.store i { m.handler i with used := false })
      (fun t _ => by rw [store_handler_same]; simp [sw_timer_fires])
    exact ⟨h.2, h.1⟩

theorem task_leaves_inactive_slot_alone_witness :
    (∀ (tick : Nat) (m : sw_timer_module 2),
      ((m.handler 1).used = false ∨ (m.handler 1).callback_enable = false ∨
        sw_timer_expired (m.handler 1).expire_time tick = false ∨
        (m.handler 1).busy = true) →
      (sw_timer_task (sw_timer_code_rearm 2 30) tick m).1.handler 1 = m.handler 1 ∧
        sw_timer_calls_of (sw_timer_task (sw_timer_code_rearm 2 30) tick m).2
          (((1 : Fin 2).val : Nat) : Int) = []) ∧
    (∀ (ticks : List Nat) (m : sw_timer_module 2),
      ∃ m' : sw_timer_module 2,
        sw_timer_disable_callback m (((1 : Fin 2).val : Nat) : Int) = .ok m' ∧
        sw_timer_calls_of (sw_timer_task_seq (sw_timer_code_rearm 2 30) ticks m').2
          (((1 : Fin 2).val : Nat) : Int) = [] ∧
        (sw_timer_task_seq (sw_timer_code_rearm 2 30) ticks m').1.handler 1
          = m'.handler 1) ∧
    (∀ (ticks : List Nat) (m : sw_timer_module 2),
      ∃ m' : sw_timer_module 2,
        sw_timer_unregister_callback m (((1 : Fin 2).val : Nat) : Int) = .ok m' ∧
        sw_timer_calls_of (sw_timer_task_seq (sw_timer_code_rearm 2 30) ticks m').2
          (((1 : Fin 2).val : Nat) : Int) = [] ∧
        (sw_timer_task_seq (sw_timer_code_rearm 2 30) ticks m').1.handler 1
          = m'.handler 1) :=
  task_leaves_inactive_slot_alone (sw_timer_code_rearm 2 30) 1 (code_rearm_others_keep 2 30 1)

/-- Disabling an expired, armed timer silences it: on the near-wrap sample
both slots would fire at tick 3, and after `sw_timer_disable_callback(1)` the
passes at ticks 3, 4 and 4000000000 invoke only timer 0 (once, one shot). -/
theorem task_after_disable_sample :
    (sw_timer_task (sw_timer_code_idle 2) 3 sw_timer_sample_near_wrap).2.map
        (fun c => c.timer_id) = [0, 1] ∧
    ∃ m' : sw_timer_module 2,
      sw_timer_disable_callback sw_timer_sample_near_wrap 1 = .ok m' ∧
      (sw_timer_task_seq (sw_timer_code_idle 2) [3, 4, 4000000000] m').2.map
        (fun c => c.timer_id) = [0] :=
  ⟨by decide, _, rfl, by decide⟩

/-- Claim C10, as stated, fails. Two one-slot modules with the same accuracy that
differ only in the stale `expire_time` and `busy` of their free slot 0: the same
register call returns 0 in both, and afterwards slot 0 still has expire time 0
and `busy = 0` in the first but expire time 77 and `busy = 1` in the second. -/
theorem register_callback_keeps_stale_expire_time_and_busy :
    ∃ a b : sw_timer_module 1,
      sw_timer_register_callback (sw_timer_sample_stale 0 false) 7 8 100 = .ok (0, a) ∧
      sw_timer_register_callback (sw_timer_sample_stale 77 true) 7 8 100 = .ok (0, b) ∧
      (a.handler 0).expire_time = 0 ∧ (b.handler 0).expire_time = 77 ∧
      (a.handler 0).busy = false ∧ (b.handler 0).busy = true ∧
      a.handler 0 ≠ b.handler 0 :=
  ⟨_, _, rfl, rfl, by decide, by decide, by decide, by decide, by decide⟩

/-- Claim C10, amended. For two module states with the same accuracy (> 0) that
agree on every slot but `i`, where `i` is free and the lowest free slot in
both: the same register call returns `i` in both, leaves slot `i` with the same
`used` (1), `callback_enable` (0), `callback`, `context` and `period` in both,
whatever these were before, and leaves all other slots equal. `expire_time` and
`busy` of slot `i` are not written: each keeps the value it had before the
call. -/
theorem register_callback_overwrites_registration_fields {N : Nat}
    (a b : sw_timer_module N) (i : Fin N) (callback context period_ms : Nat)
    (hacc : 0 < a.accuracy) (hsame : a.accuracy = b.accuracy)
    (hothers : ∀ j : Fin N, j ≠ i → a.handler j = b.handler j)
    (hfree_a : (a.handler i).used = false) (hfree_b : (b.handler i).used = false)
    (hlow : ∀ j : Fin N, j.val < i.val → (a.handler j).used = true) :
    ∃ a' b' : sw_timer_module N,
      sw_timer_register_callback a callback context period_ms = .ok ((i.val : Int), a') ∧
      sw_timer_register_callback b callback context period_ms = .ok ((i.val : Int), b') ∧
      (a'.handler i).used = true ∧ (b'.handler i).used = true ∧
      (a'.handler i).callback_enable = false ∧ (b'.handler i).callback_enable = false ∧
      (a'.handler i).callback = callback ∧ (b'.handler i).callback = callback ∧
      (a'.handler i).context = context ∧ (b'.handler i).context = context ∧
      (a'.handler i).period = period_ms / a.accuracy ∧
      (b'.handler i).period = period_ms / a.accuracy ∧
      (∀ j : Fin N, j ≠ i → a'.handler j = b'.handler j) ∧
      (a'.handler i).expire_time = (a.handler i).expire_time ∧
      (b'.handler i).expire_time = (b.handler i).expire_time ∧
      (a'.handler i).busy = (a.handler i).busy ∧
      (b'.handler i).busy = (b.handler i).busy := by
  have hlow_b : ∀ j : Fin N, j.val < i.val → (b.handler j).used = true := by
    intro j hj
    have hne : j ≠ i := fun h => by rw [h] at hj; omega
    rw [← hothers j hne]
    exact hlow j hj
  refine ⟨_, _, register_lowest a callback context period_ms i (by omega) hfree_a hlow,
    register_lowest b callback context period_ms i (by omega) hfree_b hlow_b,
    ?_, ?_, ?_, ?_, ?_, ?_, ?_, ?_, ?_, ?_, ?_, ?_, ?_, ?_, ?_⟩
  · simp [sw_timer_registered, store_handler_same]
  · simp [sw_timer_registered, store_handler_same]
  · simp [sw_timer_registered, store_handler_same]
  · simp [sw_timer_registered, store_handler_same]
  · simp [sw_timer_registered, store_handler_same]
  · simp [sw_timer_registered, store_handler_same]
  · simp [sw_timer_registered, store_handler_same]
  · simp [sw_timer_registered, store_handler_same]
  · simp [sw_timer_registered, store_handler_same]
  · simp [sw_timer_registered, store_handler_same, hsame]
  · intro j hj
    rw [sw_timer_registered, sw_timer_registered, store_handler_other _ _ _ _ hj,
      store_handler_other _ _ _ _ hj]
    exact hothers j hj
  · simp [sw_timer_registered, store_handler_same]
  · simp [sw_timer_registered, store_handler_same]
  · simp [sw_timer_registered, store_handler_same]
  · simp [sw_timer_registered, store_handler_same]

theorem register_callback_overwrites_registration_fields_witness :
    (0 < (sw_timer_sample_stale 0 false).accuracy ∧
      (sw_timer_sample_stale 0 false).accuracy = (sw_timer_sample_stale 77 true).accuracy ∧
      ((sw_timer_sample_stale 0 false).handler 0).used = false ∧
      ((sw_timer_sample_stale 77 true).handler 0).used = false) ∧
    ∃ a' b' : sw_timer_module 1,
      sw_timer_register_callback (sw_timer_sample_stale 0 false) 7 8 100
        = .ok ((((0 : Fin 1).val : Nat) : Int), a') ∧
      sw_timer_register_callback (sw_timer_sample_stale 77 true) 7 8 100
        = .ok ((((0 : Fin 1).val : Nat) : Int), b') ∧
      (a'.handler 0).used = true ∧ (b'.handler 0).used = true ∧
      (a'.handler 0).callback_enable = false ∧ (b'.handler 0).callback_enable = false ∧
      (a'.handler 0).callback = 7 ∧ (b'.handler 0).callback = 7 ∧
      (a'.handler 0).context = 8 ∧ (b'.handler 0).context = 8 ∧
      (a'.handler 0).period = 100 / (sw_timer_sample_stale 0 false).accuracy ∧
      (b'.handler 0).period = 100 / (sw_timer_sample_stale 0 false).accuracy ∧
      (∀ j : Fin 1, j ≠ 0 → a'.handler j = b'.handler j) ∧
      (a'.handler 0).expire_time = ((sw_timer_sample_stale 0 false).handler 0).expire_time ∧
      (b'.handler 0).expire_time = ((sw_timer_sample_stale 77 true).handler 0).expire_time ∧
      (a'.handler 0).busy = ((sw_timer_sample_stale 0 false).handler 0).busy ∧
      (b'.handler 0).busy = ((sw_timer_sample_stale 77 true).handler 0).busy :=
  ⟨⟨by decide, by decide, by decide, by decide⟩,
    register_callback_overwrites_registration_fields (sw_timer_sample_stale 0 false)
      (sw_timer_sample_stale 77 true) 0 7 8 100 (by decide) (by decide)
      (fun j hj => absurd (Subsingleton.elim j 0) hj) (by decide)
      (by decide) (fun j hj => absurd hj (Nat.not_lt_zero _))⟩

/-! ## Further facts about registration -/

/-- What a returning register call can have done: nothing (and -1), or the
claim of a free slot. -/
theorem register_from_cases {N : Nat} (m : sw_timer_module N) (callback context period : Nat) :
    ∀ (fuel index : Nat) (id : Int) (m' : sw_timer_module N),
      sw_timer_register_callback_from m callback context period fuel index = .ok (id, m') →
      (id = -1 ∧ m' = m) ∨
        ∃ i : Fin N, id = (i.val : Int) ∧ (m.handler i).used = false ∧
          m' = sw_timer_registered m i callback context period := by
  intro fuel
  induction fuel with
  | zero =>
    intro index id m' h
    rw [sw_timer_register_callback_from] at h
    cases h
    exact Or.inl ⟨rfl, rfl⟩
  | succ fuel ih =>
    intro index id m' h
    rw [sw_timer_register_callback_from] at h
    by_cases hN : index < N
    · rw [dif_pos hN] at h
      by_cases hu : (m.handler ⟨index, hN⟩).used = false
      · rw [if_pos hu] at h
        by_cases ha : m.accuracy = 0
        · rw [if_pos ha] at h
          cases h
        · rw [if_neg ha] at h
          cases h
          exact Or.inr ⟨⟨index, hN⟩, rfl, hu, rfl⟩
      · rw [if_neg hu] at h
        exact ih (index + 1) id m' h
    · rw [dif_neg hN] at h
      cases h
      exact Or.inl ⟨rfl, rfl⟩

theorem register_cases {N : Nat} (m : sw_timer_module N) (callback context period : Nat)
    (id : Int) (m' : sw_timer_module N)
    (h : sw_timer_register_callback m callback context period = .ok (id, m')) :
    (id = -1 ∧ m' = m) ∨
      ∃ i : Fin N, id = (i.val : Int) ∧ (m.handler i).used = false ∧
        m' = sw_timer_registered m i callback context period :=
  register_from_cases m callback context period N 0 id m' h

/-- Claim C11. For a timer id in [0, N), `sw_timer_disable_callback` returns
normally and writes only `callback_enable = 0` in that slot: `used`, `callback`,
`context`, `period`, `expire_time` and `busy` of the slot, all other slots and
the accuracy are unchanged. The slot is not freed: if it was in use, no
following register call returns this id. And with accuracy > 0, for a used,
non-busy slot (callbacks of other timers not writing it), a later
`enable(id, delay)` succeeds and a pass at a tick at which the new expire time
has passed makes exactly one invocation for the id, with the callback, context
and period the slot held before the disable. -/
theorem disable_callback_keeps_registration {N : Nat} (code : sw_timer_code N)
    (m : sw_timer_module N) (timer_id : Int) (hlo : 0 ≤ timer_id)
    (hhi : timer_id < (N : Int)) :
    ∃ (i : Fin N) (m' : sw_timer_module N),
      (i.val : Int) = timer_id ∧
      sw_timer_disable_callback m timer_id = .ok m' ∧
      m'.handler i = { m.handler i with callback_enable := false } ∧
      (∀ j : Fin N, j ≠ i → m'.handler j = m.handler j) ∧
      m'.accuracy = m.accuracy ∧
      ((m.handler i).used = true →
        ∀ (callback context period_ms : Nat) (id : Int) (m'' : sw_timer_module N),
          sw_timer_register_callback m' callback context period_ms = .ok (id, m'') →
          id ≠ timer_id) ∧
      (0 < m.accuracy → (m.handler i).used = true → (m.handler i).busy = false →
        sw_timer_others_keep code i →
        ∀ t delay tick : Nat, ∃ m2 : sw_timer_module N,
          sw_timer_enable_callback t m' timer_id delay = .ok m2 ∧
          (m2.handler i).expire_time = (t + delay / m.accuracy) % 4294967296 ∧
          (sw_timer_expired ((t + delay / m.accuracy) % 4294967296) tick = true →
            ∃ c : sw_timer_call N,
              sw_timer_calls_of (sw_timer_task code tick m2).2 timer_id = [c] ∧
              c.callback = (m.handler i).callback ∧
              c.context = (m.handler i).context ∧
              c.period = (m.handler i).period)) := by
  have hlt : timer_id.toNat < N := by omega
  have hid : ((timer_id.toNat : Nat) : Int) = timer_id := by omega
  obtain ⟨i, hi⟩ : ∃ i : Fin N, (i.val : Int) = timer_id := ⟨⟨timer_id.toNat, hlt⟩, hid⟩
  subst hi
  refine ⟨i, _, rfl, disable_callback_ok m i, store_handler_same _ _ _,
    fun j hj => store_handler_other _ _ _ _ hj, rfl, ?_, ?_⟩
  · intro hused callback context period_ms id m'' hreg
    rcases register_cases _ _ _ _ _ _ hreg with ⟨h1, _⟩ | ⟨k, hk, hfree, _⟩
    · rw [h1]; omega
    · intro hidk
      have hki : k = i := Fin.ext (by omega)
      rw [hki, store_handler_same] at hfree
      simp only at hfree
      rw [hused] at hfree
      cases hfree
  · intro hacc hused hbusy hkeep t delay tick
    have hacc' : (m.store i { m.handler i with callback_enable := false }).accuracy ≠ 0 := by
      rw [store_accuracy]; omega
    refine ⟨_, enable_callback_ok t _ i delay hacc', ?_, ?_⟩
    · rw [store_handler_same, store_accuracy]
    · intro hx
      have hf : sw_timer_fires tick
          (((m.store i { m.handler i with callback_enable := false }).store i
            { (m.store i { m.handler i with callback_enable := false }).handler i with
              callback_enable := true
              expire_time := (t + delay /
                (m.store i { m.handler i with callback_enable := false }).accuracy)
                  % 4294967296 }).handler i) = true := by
        rw [store_handler_same, store_handler_same, store_accuracy]
        simp [sw_timer_fires, hused, hbusy, hx]
      obtain ⟨mi, hmi, hc, _⟩ := task_fires code tick i _ hkeep hf
      refine ⟨_, hc, ?_, ?_, ?_⟩
      · show (mi.handler i).callback = _
        rw [hmi, store_handler_same, store_handler_same]
      · show (mi.handler i).context = _
        rw [hmi, store_handler_same, store_handler_same]
      · show (mi.handler i).period = _
        rw [hmi, store_handler_same, store_handler_same]

theorem disable_callback_keeps_registration_witness :
    ((0 : Int) ≤ 1 ∧ (1 : Int) < ((2 : Nat) : Int)) ∧
    ∃ (i : Fin 2) (m' : sw_timer_module 2),
      (i.val : Int) = 1 ∧
      sw_timer_disable_callback sw_timer_sample_enabled 1 = .ok m' ∧
      m'.handler i = { sw_timer_sample_enabled.handler i with callback_enable := false } ∧
      (∀ j : Fin 2, j ≠ i → m'.handler j = sw_timer_sample_enabled.handler j) ∧
      m'.accuracy = sw_timer_sample_enabled.accuracy ∧
      ((sw_timer_sample_enabled.handler i).used = true →
        ∀ (callback context period_ms : Nat) (id : Int) (m'' : sw_timer_module 2),
          sw_timer_register_callback m' callback context period_ms = .ok (id, m'') →
          id ≠ 1) ∧
      (0 < sw_timer_sample_enabled.accuracy →
        (sw_timer_sample_enabled.handler i).used = true →
        (sw_timer_sample_enabled.handler i).busy = false →
        sw_timer_others_keep (sw_timer_code_idle 2) i →
        ∀ t delay tick : Nat, ∃ m2 : sw_timer_module 2,
          sw_timer_enable_callback t m' 1 delay = .ok m2 ∧
          (m2.handler i).expire_time
            = (t + delay / sw_timer_sample_enabled.accuracy) % 4294967296 ∧
          (sw_timer_expired ((t + delay / sw_timer_sample_enabled.accuracy) % 4294967296)
              tick = true →
            ∃ c : sw_timer_call 2,
              sw_timer_calls_of (sw_timer_task (sw_timer_code_idle 2) tick m2).2 1 = [c] ∧
              c.callback = (sw_timer_sample_enabled.handler i).callback ∧
              c.context = (sw_timer_sample_enabled.handler i).context ∧
              c.period = (sw_timer_sample_enabled.handler i).period)) :=
  ⟨⟨by decide, by decide⟩,
    disable_callback_keeps_registration (sw_timer_code_idle 2) sw_timer_sample_enabled 1
      (by decide) (by decide)⟩

/-- The sequence disable, enable, pass on the enabled sample (slot 1 holds
callback 3, context 4, period 5): after `disable(1)` and `enable(1, 20)` at tick
50 the pass at tick 53 invokes callback 3 for timer 1 with context 4 and period
5, and a register call in between returns 0, not 1. -/
theorem disable_then_enable_sample :
    ∃ m1 m2 m3 : sw_timer_module 2,
      sw_timer_disable_callback sw_timer_sample_enabled 1 = .ok m1 ∧
      sw_timer_register_callback m1 9 9 9 = .ok (0, m3) ∧
      sw_timer_enable_callback 50 m1 1 20 = .ok m2 ∧
      (sw_timer_task (sw_timer_code_idle 2) 53 m2).2.map
        (fun c => (c.callback, c.timer_id, c.context, c.period)) = [(3, 1, 4, 5)] :=
  ⟨_, _, _, rfl, rfl, rfl, by decide⟩

/-- Claim C12. For a timer id in [0, N), `sw_timer_unregister_callback`
returns normally and writes only `used = 0` in that slot: `callback_enable`,
`busy`, `expire_time`, `period`, `callback` and `context` of the slot, every
other slot and the accuracy are unchanged. The freed slot is eligible for the
next registration: with accuracy > 0 the next register call succeeds with an
index not above this id, and returns this id when every lower slot is in use. -/
theorem unregister_callback_frees_slot_only {N : Nat} (m : sw_timer_module N)
    (timer_id : Int) (hlo : 0 ≤ timer_id) (hhi : timer_id < (N : Int)) :
    ∃ (i : Fin N) (m' : sw_timer_module N),
      (i.val : Int) = timer_id ∧
      sw_timer_unregister_callback m timer_id = .ok m' ∧
      m'.handler i = { m.handler i with used := false } ∧
      (∀ j : Fin N, j ≠ i → m'.handler j = m.handler j) ∧
      m'.accuracy = m.accuracy ∧
      (0 < m.accuracy → ∀ callback context period_ms : Nat,
        ∃ (k : Fin N) (m'' : sw_timer_module N),
          sw_timer_register_callback m' callback context period_ms
            = .ok ((k.val : Int), m'') ∧
          k.val ≤ i.val ∧ (m''.handler k).used = true ∧
          ((∀ j : Fin N, j.val < i.val → (m.handler j).used = true) → k = i)) := by
  have hlt : timer_id.toNat < N := by omega
  have hid : ((timer_id.toNat : Nat) : Int) = timer_id := by omega
  obtain ⟨i, hi⟩ : ∃ i : Fin N, (i.val : Int) = timer_id := ⟨⟨timer_id.toNat, hlt⟩, hid⟩
  subst hi
  refine ⟨i, _, rfl, unregister_callback_ok m i, store_handler_same _ _ _,
    fun j hj => store_handler_other _ _ _ _ hj, rfl, ?_⟩
  intro hacc callback context period_ms
  have hfree_i : ((m.store i { m.handler i with used := false }).handler i).used = false := by
    rw [store_handler_same]
  obtain ⟨k, hk, hlow⟩ := lowest_free_exists _ ⟨i, hfree_i⟩
  have hki : k.val ≤ i.val := by
    by_contra hc
    have := hlow i (by omega)
    rw [hfree_i] at this
    cases this
  refine ⟨k, _, register_lowest _ callback context period_ms k
    (by rw [store_accuracy]; omega) hk hlow, hki, ?_, ?_⟩
  · simp [sw_timer_registered, store_handler_same]
  · intro hall
    by_contra hne
    have hlt2 : k.val < i.val := by
      rcases Nat.lt_or_ge k.val i.val with h | h
      · exact h
      · exact absurd (Fin.ext (by omega)) hne
    rw [store_handler_other _ _ _ _ hne, hall k hlt2] at hk
    cases hk

theorem unregister_callback_frees_slot_only_witness :
    ((0 : Int) ≤ 1 ∧ (1 : Int) < ((2 : Nat) : Int)) ∧
    ∃ (i : Fin 2) (m' : sw_timer_module 2),
      (i.val : Int) = 1 ∧
      sw_timer_unregister_callback sw_timer_sample_registered 1 = .ok m' ∧
      m'.handler i = { sw_timer_sample_registered.handler i with used := false } ∧
      (∀ j : Fin 2, j ≠ i → m'.handler j = sw_timer_sample_registered.handler j) ∧
      m'.accuracy = sw_timer_sample_registered.accuracy ∧
      (0 < sw_timer_sample_registered.accuracy → ∀ callback context period_ms : Nat,
        ∃ (k : Fin 2) (m'' : sw_timer_module 2),
          sw_timer_register_callback m' callback context period_ms
            = .ok ((k.val : Int), m'') ∧
          k.val ≤ i.val ∧ (m''.handler k).used = true ∧
          ((∀ j : Fin 2, j.val < i.val → (sw_timer_sample_registered.handler j).used = true) →
            k = i)) :=
  ⟨⟨by decide, by decide⟩,
    unregister_callback_frees_slot_only sw_timer_sample_registered 1 (by decide) (by decide)⟩

/-- Unregistering timer 1 of the sample in which both slots are registered
(accuracy 10) leaves the stale fields in place, and the next register call
returns 1. -/
theorem unregister_then_register_sample :
    ∃ m1 m2 : sw_timer_module 2,
      sw_timer_unregister_callback sw_timer_sample_registered 1 = .ok m1 ∧
      m1.handler 1 = { sw_timer_sample_registered.handler 1 with used := false } ∧
      sw_timer_register_callback m1 9 9 90 = .ok (1, m2) ∧
      (m2.handler 1).used = true ∧ (m2.handler 1).period = 9 :=
  ⟨_, _, rfl, by decide, rfl, by decide, by decide⟩

/-- The scenario register, enable, pass on a blank two-slot module with
accuracy 10: `register(7, 8, 100)` returns 0, and after `enable(0, 50)` at tick
1000 the pass at tick 1006 calls function 7 with timer id 0, context 8 and
period 10 (ticks), not 100 (milliseconds). -/
theorem register_enable_task_sample :
    ∃ m1 m2 : sw_timer_module 2,
      sw_timer_register_callback (sw_timer_blank 2 10) 7 8 100 = .ok (0, m1) ∧
      sw_timer_enable_callback 1000 m1 0 50 = .ok m2 ∧
      (sw_timer_task (sw_timer_code_idle 2) 1006 m2).2.map
        (fun c => (c.callback, c.timer_id, c.context, c.period)) = [(7, 0, 8, 10)] :=
  ⟨_, _, rfl, rfl, by decide⟩

/-! ## Truncation and range of the tick arithmetic -/

theorem expired_at_arming_tick (t D : Nat) :
    sw_timer_expired ((t + D) % 4294967296) t = true ↔ 2147483648 ≤ D % 4294967296 := by
  rw [expired_iff]
  unfold u32_sub
  omega

/-- The slot after a one-shot firing whose callback does not write its own
slot: only `callback_enable` has changed. -/
theorem task_one_shot_result {N : Nat} (code : sw_timer_code N) (tick : Nat) (i : Fin N)
    (m : sw_timer_module N) (hkeep : sw_timer_others_keep code i)
    (hf : sw_timer_fires tick (m.handler i) = true) (hper : (m.handler i).period = 0)
    (hself : ∀ m' : sw_timer_module N,
      (code (m.handler i).callback tick m' (i.val : Int) (m.handler i).context
        (m.handler i).period).handler i = m'.handler i) :
    (sw_timer_calls_of (sw_timer_task code tick m).2 (i.val : Int)).length = 1 ∧
      (sw_timer_task code tick m).1.handler i
        = { m.handler i with callback_enable := false } := by
  obtain ⟨mi, hmi, hc, hfin⟩ := task_fires code tick i m hkeep hf
  have hbusy : (m.handler i).busy = false := by
    unfold sw_timer_fires at hf
    simp only [Bool.and_eq_true, beq_iff_eq] at hf
    exact hf.2
  refine ⟨by rw [hc]; rfl, ?_⟩
  rw [hfin, sw_timer_task_returned, hmi, hself, sw_timer_task_entered, store_handler_same,
    hmi, sw_timer_task_arm, if_neg (by omega)]
  cases hh : m.handler i
  rw [hh] at hbusy
  simp only at hbusy
  simp [hbusy]

/-- Claim C17. The conversion from milliseconds to ticks truncates. For
accuracy > 0 and `period_ms < accuracy` (in particular `0 < period_ms <
accuracy`), a register call that claims slot `i` stores `period = 0`, and the timer then behaves as a one shot: once enabled
and fired by a pass (callback not writing its own slot, other callbacks not
writing it either) the slot ends with `callback_enable = 0` and its expire time
not re-armed, and no later pass invokes it. Likewise `enable` with
`delay_ms < accuracy` at tick `t` sets `expire_time = t`. -/
theorem short_durations_truncate_to_zero {N : Nat} (code : sw_timer_code N)
    (m : sw_timer_module N) (i : Fin N) (callback context period_ms : Nat)
    (hacc : 0 < m.accuracy) (hp : period_ms < m.accuracy)
    (hfree : (m.handler i).used = false)
    (hlow : ∀ j : Fin N, j.val < i.val → (m.handler j).used = true)
    (hkeep : sw_timer_others_keep code i)
    (hself : ∀ (tick : Nat) (m' : sw_timer_module N),
      (code callback tick m' (i.val : Int) context 0).handler i = m'.handler i) :
    ∃ m1 : sw_timer_module N,
      sw_timer_register_callback m callback context period_ms = .ok ((i.val : Int), m1) ∧
      (m1.handler i).period = 0 ∧
      (∀ t delay_ms : Nat, delay_ms < m.accuracy → t < 4294967296 →
        ∃ m2 : sw_timer_module N,
          sw_timer_enable_callback t m1 (i.val : Int) delay_ms = .ok m2 ∧
          (m2.handler i).expire_time = t) ∧
      (∀ t delay_ms tick : Nat, ∃ m2 : sw_timer_module N,
        sw_timer_enable_callback t m1 (i.val : Int) delay_ms = .ok m2 ∧
        (sw_timer_fires tick (m2.handler i) = true →
          (sw_timer_calls_of (sw_timer_task code tick m2).2 (i.val : Int)).length = 1 ∧
          ((sw_timer_task code tick m2).1.handler i).callback_enable = false ∧
          ((sw_timer_task code tick m2).1.handler i).expire_time
            = (m2.handler i).expire_time ∧
          ∀ ticks : List Nat,
            sw_timer_calls_of
              (sw_timer_task_seq code ticks (sw_timer_task code tick m2).1).2
              (i.val : Int) = [])) := by
  have hzero : period_ms / m.accuracy = 0 := Nat.div_eq_of_lt hp
  have hacc1 : (sw_timer_registered m i callback context period_ms).accuracy ≠ 0 := by
    rw [sw_timer_registered, store_accuracy]; omega
  have hslot : (sw_timer_registered m i callback context period_ms).handler i
      = { m.handler i with
          callback := callback, callback_enable := false, context := context,
          period := 0, used := true } := by
    rw [sw_timer_registered, store_handler_same, hzero]
  refine ⟨_, register_lowest m callback context period_ms i (by omega) hfree hlow, ?_, ?_, ?_⟩
  · rw [hslot]
  · intro t delay_ms hd ht
    refine ⟨_, enable_callback_ok t _ i delay_ms hacc1, ?_⟩
    rw [store_handler_same]
    show (t + delay_ms / (sw_timer_registered m i callback context period_ms).accuracy)
      % 4294967296 = t
    rw [sw_timer_registered, store_accuracy, Nat.div_eq_of_lt hd]
    omega
  · intro t delay_ms tick
    refine ⟨_, enable_callback_ok t _ i delay_ms hacc1, ?_⟩
    intro hf
    have harmed : ((sw_timer_registered m i callback context period_ms).store i
        { (sw_timer_registered m i callback context period_ms).handler i with
          callback_enable := true
          expire_time := (t + delay_ms /
            (sw_timer_registered m i callback context period_ms).accuracy)
              % 4294967296 }).handler i
        = { m.handler i with
            callback := callback, callback_enable := true, context := context,
            period := 0, used := true,
            expire_time := (t + delay_ms /
              (sw_timer_registered m i callback context period_ms).accuracy)
                % 4294967296 } := by
      rw [store_handler_same, hslot]
    obtain ⟨h1, h2⟩ := task_one_shot_result code tick i _ hkeep hf
      (by rw [harmed]) (by rw [harmed]; exact hself tick)
    have hoff := congrArg sw_timer_handle.callback_enable h2
    have hexp := congrArg sw_timer_handle.expire_time h2
    refine ⟨h1, hoff, hexp, fun ticks => ?_⟩
    exact (task_seq_quiet code i hkeep ticks _
      (fun t' _ => by simp [sw_timer_fires, hoff])).2

theorem short_durations_truncate_to_zero_witness :
    (0 < (sw_timer_blank 2 10).accuracy ∧ 7 < (sw_timer_blank 2 10).accuracy ∧
      ((sw_timer_blank 2 10).handler 0).used = false) ∧
    ∃ m1 : sw_timer_module 2,
      sw_timer_register_callback (sw_timer_blank 2 10) 3 4 7
        = .ok ((((0 : Fin 2).val : Nat) : Int), m1) ∧
      (m1.handler 0).period = 0 ∧
      (∀ t delay_ms : Nat, delay_ms < (sw_timer_blank 2 10).accuracy → t < 4294967296 →
        ∃ m2 : sw_timer_module 2,
          sw_timer_enable_callback t m1 (((0 : Fin 2).val : Nat) : Int) delay_ms = .ok m2 ∧
          (m2.handler 0).expire_time = t) ∧
      (∀ t delay_ms tick : Nat, ∃ m2 : sw_timer_module 2,
        sw_timer_enable_callback t m1 (((0 : Fin 2).val : Nat) : Int) delay_ms = .ok m2 ∧
        (sw_timer_fires tick (m2.handler 0) = true →
          (sw_timer_calls_of (sw_timer_task (sw_timer_code_idle 2) tick m2).2
            (((0 : Fin 2).val : Nat) : Int)).length = 1 ∧
          ((sw_timer_task (sw_timer_code_idle 2) tick m2).1.handler 0).callback_enable
            = false ∧
          ((sw_timer_task (sw_timer_code_idle 2) tick m2).1.handler 0).expire_time
            = (m2.handler 0).expire_time ∧
          ∀ ticks : List Nat,
            sw_timer_calls_of
              (sw_timer_task_seq (sw_timer_code_idle 2) ticks
                (sw_timer_task (sw_timer_code_idle 2) tick m2).1).2
              (((0 : Fin 2).val : Nat) : Int) = [])) :=
  ⟨⟨by decide, by decide, by decide⟩,
    short_durations_truncate_to_zero (sw_timer_code_idle 2) (sw_timer_blank 2 10) 0 3 4 7
      (by decide) (by decide) (by decide)
      (fun j hj => absurd hj (Nat.not_lt_zero _)) (code_idle_others_keep 2 0)
      (fun _ _ => rfl)⟩

/-- The truncation on a blank two-slot module with accuracy 10:
`register(3, 4, 7)` stores period 0, `enable(0, 9)` at tick 500 sets expire time
500, and of the passes at ticks 501, 502 and 600 only the first invokes the
timer. -/
theorem short_period_sample :
    ∃ m1 m2 : sw_timer_module 2,
      sw_timer_register_callback (sw_timer_blank 2 10) 3 4 7 = .ok (0, m1) ∧
      (m1.handler 0).period = 0 ∧
      sw_timer_enable_callback 500 m1 0 9 = .ok m2 ∧
      (m2.handler 0).expire_time = 500 ∧
      (sw_timer_task (sw_timer_code_idle 2) 501 m2).2.length = 1 ∧
      (sw_timer_task_seq (sw_timer_code_idle 2) [501, 502, 600] m2).2.length = 1 :=
  ⟨_, _, rfl, by decide, rfl, by decide, by decide, by decide⟩

/-- Claim C18. The usable delay range is bounded by the signed comparison. For
accuracy > 0, a used, non-busy slot `i` (callbacks of other timers not writing
it), a tick value `t` and `D = delay_ms / accuracy`: after `enable(i, delay_ms)`
at tick `t`, if `2^31 <= D < 2^32` the slot is already expired at tick `t` and
a pass made at once, at the same tick `t`, invokes its callback; if `D < 2^31`
the slot is not expired at tick `t` and a pass at tick `t` makes no invocation
for it. -/
theorem enable_delay_range_is_half_the_counter {N : Nat} (code : sw_timer_code N)
    (m : sw_timer_module N) (i : Fin N) (t delay_ms : Nat) (hacc : 0 < m.accuracy)
    (hused : (m.handler i).used = true) (hbusy : (m.handler i).busy = false)
    (hkeep : sw_timer_others_keep code i) :
    ∃ m1 : sw_timer_module N,
      sw_timer_enable_callback t m (i.val : Int) delay_ms = .ok m1 ∧
      (2147483648 ≤ delay_ms / m.accuracy → delay_ms / m.accuracy < 4294967296 →
        sw_timer_expired (m1.handler i).expire_time t = true ∧
        (sw_timer_calls_of (sw_timer_task code t m1).2 (i.val : Int)).length = 1) ∧
      (delay_ms / m.accuracy < 2147483648 →
        sw_timer_expired (m1.handler i).expire_time t = false ∧
        sw_timer_calls_of (sw_timer_task code t m1).2 (i.val : Int) = []) := by
  refine ⟨_, enable_callback_ok t m i delay_ms (by omega), ?_, ?_⟩
  · intro h1 h2
    have hx : sw_timer_expired ((t + delay_ms / m.accuracy) % 4294967296) t = true := by
      rw [expired_at_arming_tick]
      generalize delay_ms / m.accuracy = D at h1 h2 ⊢
      omega
    have hf : sw_timer_fires t
        ((m.store i
          { m.handler i with
            callback_enable := true
            expire_time := (t + delay_ms / m.accuracy) % 4294967296 }).handler i) = true := by
      rw [store_handler_same]
      simp [sw_timer_fires, hused, hbusy, hx]
    obtain ⟨mi, _, hc, _⟩ := task_fires code t i _ hkeep hf
    refine ⟨by rw [store_handler_same]; exact hx, by rw [hc]; rfl⟩
  · intro h1
    have hx : sw_timer_expired ((t + delay_ms / m.accuracy) % 4294967296) t = false := by
      rw [Bool.eq_false_iff, Ne, expired_at_arming_tick]
      generalize delay_ms / m.accuracy = D at h1 ⊢
      omega
    have hf : sw_timer_fires t
        ((m.store i
          { m.handler i with
            callback_enable := true
            expire_time := (t + delay_ms / m.accuracy) % 4294967296 }).handler i) = false := by
      rw [store_handler_same]
      simp [sw_timer_fires, hx]
    exact ⟨by rw [store_handler_same]; exact hx, (task_quiet code t i _ hkeep hf).2⟩

theorem enable_delay_range_is_half_the_counter_witness :
    ((0 < sw_timer_sample_fine.accuracy ∧
      (sw_timer_sample_fine.handler 0).used = true ∧
      (sw_timer_sample_fine.handler 0).busy = false ∧
      1000 < 4294967296 ∧ 2147483648 < 4294967296 ∧
      2147483648 ≤ 2147483648 / sw_timer_sample_fine.accuracy ∧
      2147483648 / sw_timer_sample_fine.accuracy < 4294967296) ∧
    ∃ m1 : sw_timer_module 2,
      sw_timer_enable_callback 1000 sw_timer_sample_fine
        (((0 : Fin 2).val : Nat) : Int) 2147483648 = .ok m1 ∧
      sw_timer_expired (m1.handler 0).expire_time 1000 = true ∧
      (sw_timer_calls_of (sw_timer_task (sw_timer_code_idle 2) 1000 m1).2
        (((0 : Fin 2).val : Nat) : Int)).length = 1) ∧
    ((2147483647 < 4294967296 ∧
      2147483647 / sw_timer_sample_fine.accuracy < 2147483648) ∧
    ∃ m2 : sw_timer_module 2,
      sw_timer_enable_callback 1000 sw_timer_sample_fine
        (((0 : Fin 2).val : Nat) : Int) 2147483647 = .ok m2 ∧
      sw_timer_expired (m2.handler 0).expire_time 1000 = false ∧
      sw_timer_calls_of (sw_timer_task (sw_timer_code_idle 2) 1000 m2).2
        (((0 : Fin 2).val : Nat) : Int) = []) :=
  ⟨⟨⟨by decide, by decide, by decide, by decide, by decide, by decide, by decide⟩,
      Exists.elim
        (enable_delay_range_is_half_the_counter (sw_timer_code_idle 2) sw_timer_sample_fine 0
          1000 2147483648 (by decide) (by decide) (by decide) (code_idle_others_keep 2 0))
        (fun m1 h => ⟨m1, h.1, h.2.1 (by decide) (by decide)⟩)⟩,
    ⟨⟨by decide, by decide⟩,
      Exists.elim
        (enable_delay_range_is_half_the_counter (sw_timer_code_idle 2) sw_timer_sample_fine 0
          1000 2147483647 (by decide) (by decide) (by decide) (code_idle_others_keep 2 0))
        (fun m2 h => ⟨m2, h.1, h.2.2 (by decide)⟩)⟩⟩

/-- The two sides of the delay bound at tick 1000, with delays that fit the
32-bit parameter. On the sample with accuracy 1 a delay of 2^31 ms (2^31
ticks) and the largest delay 2^32 - 1 are due at once, a delay of 2^31 - 1 is
not. On the registered sample with accuracy 10 even the largest delay
2^32 - 1 gives 429496729 ticks, below 2^31, and is not due at once: with a
32-bit delay the due-at-once range is reached only with accuracy 1. -/
theorem enable_delay_range_sample :
    (∃ m1 m2 m3 : sw_timer_module 2,
      sw_timer_enable_callback 1000 sw_timer_sample_fine 0 2147483648 = .ok m1 ∧
      sw_timer_enable_callback 1000 sw_timer_sample_fine 0 2147483647 = .ok m2 ∧
      sw_timer_enable_callback 1000 sw_timer_sample_fine 0 4294967295 = .ok m3 ∧
      (m1.handler 0).expire_time = 2147484648 ∧
      (sw_timer_task (sw_timer_code_idle 2) 1000 m1).2.length = 1 ∧
      (sw_timer_task (sw_timer_code_idle 2) 1000 m2).2.length = 0 ∧
      (sw_timer_task (sw_timer_code_idle 2) 1000 m3).2.length = 1) ∧
    (∃ m4 : sw_timer_module 2,
      sw_timer_enable_callback 1000 sw_timer_sample_registered 0 4294967295 = .ok m4 ∧
      (m4.handler 0).expire_time = 429497729 ∧
      (sw_timer_task (sw_timer_code_idle 2) 1000 m4).2.length = 0) ∧
    (∀ accuracy delay_ms : Nat, delay_ms < 4294967296 →
      2147483648 ≤ delay_ms / accuracy → accuracy = 1) :=
  ⟨⟨_, _, _, rfl, rfl, rfl, by decide, by decide, by decide, by decide⟩,
    ⟨_, rfl, by decide, by decide⟩,
    fun accuracy delay_ms hd h => by
      rcases Nat.lt_or_ge accuracy 2 with h2 | h2
      · rcases Nat.eq_zero_or_pos accuracy with h0 | h0
        · rw [h0, Nat.div_zero] at h
          omega
        · omega
      · have hle : delay_ms / accuracy ≤ delay_ms / 2 := Nat.div_le_div_left h2 (by norm_num)
        omega⟩

/-- Claim C19. After a pass at tick `t` has fired a periodic slot `i` with
`0 < period < 2^31` (its callback not writing the slot, callbacks of other
timers not writing it either), the slot is not expired at tick `t` nor at any
tick `t + k` with `0 <= k <= period`: a second pass at the same tick, and any
sequence of passes at such ticks, makes no invocation for it, and the pass at
tick `t + period + 1` makes the next one. The next firing therefore needs the
counter to advance by more than `period` ticks from the tick of the firing
pass, however late that pass was. -/
theorem task_periodic_next_fire_after_period {N : Nat} (code : sw_timer_code N) (t : Nat)
    (i : Fin N) (m : sw_timer_module N) (hkeep : sw_timer_others_keep code i)
    (hf : sw_timer_fires t (m.handler i) = true) (hper0 : 0 < (m.handler i).period)
    (hper : (m.handler i).period < 2147483648)
    (hself : ∀ (tick : Nat) (m' : sw_timer_module N),
      (code (m.handler i).callback tick m' (i.val : Int) (m.handler i).context
        (m.handler i).period).handler i = m'.handler i) :
    (sw_timer_calls_of (sw_timer_task code t m).2 (i.val : Int)).length = 1 ∧
    sw_timer_expired ((sw_timer_task code t m).1.handler i).expire_time t = false ∧
    sw_timer_calls_of (sw_timer_task code t (sw_timer_task code t m).1).2 (i.val : Int)
      = [] ∧
    (∀ k : Nat, k ≤ (m.handler i).period →
      sw_timer_expired ((sw_timer_task code t m).1.handler i).expire_time
        ((t + k) % 4294967296) = false ∧
      sw_timer_calls_of
        (sw_timer_task code ((t + k) % 4294967296) (sw_timer_task code t m).1).2
        (i.val : Int) = []) ∧
    (∀ ticks : List Nat,
      (∀ tick ∈ ticks, ∃ k : Nat, k ≤ (m.handler i).period ∧
        tick = (t + k) % 4294967296) →
      sw_timer_calls_of (sw_timer_task_seq code ticks (sw_timer_task code t m).1).2
        (i.val : Int) = []) ∧
    (sw_timer_calls_of
      (sw_timer_task code ((t + (m.handler i).period + 1) % 4294967296)
        (sw_timer_task code t m).1).2 (i.val : Int)).length = 1 := by
  obtain ⟨mi, hmi, hc, hfin⟩ := task_fires code t i m hkeep hf
  have hparts : (m.handler i).used = true ∧ (m.handler i).callback_enable = true ∧
      (m.handler i).busy = false := by
    unfold sw_timer_fires at hf
    simp only [Bool.and_eq_true, beq_iff_eq] at hf
    exact ⟨hf.1.1.1, hf.1.1.2, hf.2⟩
  obtain ⟨hu, he, hb⟩ := hparts
  have hend : (sw_timer_task code t m).1.handler i
      = { m.handler i with
          expire_time := (t + (m.handler i).period) % 4294967296 } := by
    rw [hfin, sw_timer_task_returned, hmi, hself, sw_timer_task_entered, store_handler_same,
      hmi, sw_timer_task_arm, if_pos hper0]
    cases hh : m.handler i
    rw [hh] at hb
    simp only at hb
    simp [hb]
  have hfe : ∀ tick : Nat,
      sw_timer_fires tick ((sw_timer_task code t m).1.handler i)
        = sw_timer_expired ((t + (m.handler i).period) % 4294967296) tick := by
    intro tick
    rw [hend]
    exact fires_eq_expired tick _ hu he hb
  have hexp : ((sw_timer_task code t m).1.handler i).expire_time
      = (t + (m.handler i).period) % 4294967296 := by
    rw [hend]
  have hsame : sw_timer_expired ((t + (m.handler i).period) % 4294967296) t = false := by
    rw [Bool.eq_false_iff, Ne, expired_at_arming_tick]; omega
  refine ⟨by rw [hc]; rfl, by rw [hexp]; exact hsame, ?_, ?_, ?_, ?_⟩
  · exact (task_quiet code t i _ hkeep (by rw [hfe]; exact hsame)).2
  · intro k hk
    have hx := expired_armed_early t (m.handler i).period k hper hk
    exact ⟨by rw [hexp]; exact hx, (task_quiet code _ i _ hkeep (by rw [hfe]; exact hx)).2⟩
  · intro ticks hticks
    refine (task_seq_quiet code i hkeep ticks _ ?_).2
    intro tick htick
    obtain ⟨k, hk, rfl⟩ := hticks tick htick
    rw [hfe]
    exact expired_armed_early t (m.handler i).period k hper hk
  · obtain ⟨mi2, _, hc2, _⟩ := task_fires code
      ((t + (m.handler i).period + 1) % 4294967296) i _ hkeep
      (by rw [hfe]; exact expired_armed_late t _ 1 (le_refl _) (by norm_num))
    rw [hc2]; rfl

theorem task_periodic_next_fire_after_period_witness :
    (sw_timer_fires 105 (sw_timer_sample_periodic.handler 0) = true ∧
      0 < (sw_timer_sample_periodic.handler 0).period ∧
      (sw_timer_sample_periodic.handler 0).period < 2147483648) ∧
    ((sw_timer_calls_of (sw_timer_task (sw_timer_code_idle 2) 105
        sw_timer_sample_periodic).2 (((0 : Fin 2).val : Nat) : Int)).length = 1 ∧
    sw_timer_expired ((sw_timer_task (sw_timer_code_idle 2) 105
        sw_timer_sample_periodic).1.handler 0).expire_time 105 = false ∧
    sw_timer_calls_of (sw_timer_task (sw_timer_code_idle 2) 105
        (sw_timer_task (sw_timer_code_idle 2) 105 sw_timer_sample_periodic).1).2
      (((0 : Fin 2).val : Nat) : Int) = [] ∧
    (∀ k : Nat, k ≤ (sw_timer_sample_periodic.handler 0).period →
      sw_timer_expired ((sw_timer_task (sw_timer_code_idle 2) 105
          sw_timer_sample_periodic).1.handler 0).expire_time
        ((105 + k) % 4294967296) = false ∧
      sw_timer_calls_of
        (sw_timer_task (sw_timer_code_idle 2) ((105 + k) % 4294967296)
          (sw_timer_task (sw_timer_code_idle 2) 105 sw_timer_sample_periodic).1).2
        (((0 : Fin 2).val : Nat) : Int) = []) ∧
    (∀ ticks : List Nat,
      (∀ tick ∈ ticks, ∃ k : Nat, k ≤ (sw_timer_sample_periodic.handler 0).period ∧
        tick = (105 + k) % 4294967296) →
      sw_timer_calls_of (sw_timer_task_seq (sw_timer_code_idle 2) ticks
          (sw_timer_task (sw_timer_code_idle 2) 105 sw_timer_sample_periodic).1).2
        (((0 : Fin 2).val : Nat) : Int) = []) ∧
    (sw_timer_calls_of
      (sw_timer_task (sw_timer_code_idle 2)
        ((105 + (sw_timer_sample_periodic.handler 0).period + 1) % 4294967296)
        (sw_timer_task (sw_timer_code_idle 2) 105 sw_timer_sample_periodic).1).2
      (((0 : Fin 2).val : Nat) : Int)).length = 1) :=
  ⟨⟨by decide, by decide, by decide⟩,
    task_periodic_next_fire_after_period (sw_timer_code_idle 2) 105 0 sw_timer_sample_periodic
      (code_idle_others_keep 2 0) (by decide) (by decide) (by decide) (fun _ _ => rfl)⟩

/-- The periodic sample (expire time 100, period 10) polled late, at tick 105,
and then at ticks 105, 110, 115 and 116: only the first and the last pass
invoke the timer, although the period boundary 110 was passed. -/
theorem task_periodic_no_catch_up_sample :
    (sw_timer_task_seq (sw_timer_code_idle 2) [105, 105, 110, 115]
      sw_timer_sample_periodic).2.length = 1 ∧
    (sw_timer_task_seq (sw_timer_code_idle 2) [105, 105, 110, 115, 116]
      sw_timer_sample_periodic).2.length = 2 := by
  decide

/-! ## Faults and initialisation -/

/-- The loop of `sw_timer_task` needs no more than `N - index` iterations: any
larger fuel gives the same module and the same invocations. -/
theorem task_from_enough_fuel {N : Nat} (code : sw_timer_code N) (tick : Nat) :
    ∀ (fuel index : Nat) (m : sw_timer_module N), N ≤ index + fuel →
      sw_timer_task_from code tick fuel index m
        = sw_timer_task_from code tick (N - index) index m := by
  intro fuel
  induction fuel with
  | zero =>
    intro index m h
    have h0 : N - index = 0 := by omega
    rw [h0]
  | succ fuel ih =>
    intro index m h
    by_cases hN : index < N
    · obtain ⟨r, hr⟩ : ∃ r, N - index = r + 1 := ⟨N - index - 1, by omega⟩
      have hr2 : N - (index + 1) = r := by omega
      rw [hr, sw_timer_task_from, sw_timer_task_from, dif_pos hN, dif_pos hN]
      dsimp only
      rw [ih (index + 1) _ (by omega), hr2]
    · have h0 : N - index = 0 := by omega
      simp [h0, sw_timer_task_from, hN]

/-- Claim C15. Called with a timer id outside [0, N), negative or at least N,
`sw_timer_unregister_callback`, `sw_timer_enable_callback` and
`sw_timer_disable_callback` end in the assertion fault; the result carries no
module, nothing has been written. Called with a timer id in [0, N) unregister
and disable always return a module, and enable does when accuracy > 0. The
dispatcher has no fault at all: `sw_timer_task` returns a module and a list of
invocations for every module state, tick and code environment, and running its
loop with any fuel of at least `N` gives that same result. -/
theorem timer_id_out_of_range_asserts {N : Nat} (m : sw_timer_module N) (timer_id : Int)
    (t delay : Nat) :
    (¬ (0 ≤ timer_id ∧ timer_id < (N : Int)) →
      sw_timer_unregister_callback m timer_id = .error sw_timer_fault.assert_failed ∧
      sw_timer_enable_callback t m timer_id delay = .error sw_timer_fault.assert_failed ∧
      sw_timer_disable_callback m timer_id = .error sw_timer_fault.assert_failed) ∧
    (0 ≤ timer_id → timer_id < (N : Int) →
      (∃ m' : sw_timer_module N, sw_timer_unregister_callback m timer_id = .ok m') ∧
      (∃ m' : sw_timer_module N, sw_timer_disable_callback m timer_id = .ok m') ∧
      (0 < m.accuracy →
        ∃ m' : sw_timer_module N, sw_timer_enable_callback t m timer_id delay = .ok m')) ∧
    (∀ (code : sw_timer_code N) (tick : Nat),
      (∃ (m' : sw_timer_module N) (log : List (sw_timer_call N)),
        sw_timer_task code tick m = (m', log)) ∧
      ∀ fuel : Nat, N ≤ fuel →
        sw_timer_task_from code tick fuel 0 m = sw_timer_task code tick m) := by
  refine ⟨?_, ?_, ?_⟩
  · intro hout
    refine ⟨?_, ?_, ?_⟩
    · rw [sw_timer_unregister_callback, dif_neg hout]
    · rw [sw_timer_enable_callback, dif_neg hout]
    · rw [sw_timer_disable_callback, dif_neg hout]
  · intro hlo hhi
    have hlt : timer_id.toNat < N := by omega
    have hid : ((timer_id.toNat : Nat) : Int) = timer_id := by omega
    obtain ⟨i, hi⟩ : ∃ i : Fin N, (i.val : Int) = timer_id := ⟨⟨timer_id.toNat, hlt⟩, hid⟩
    subst hi
    exact ⟨⟨_, unregister_callback_ok m i⟩, ⟨_, disable_callback_ok m i⟩,
      fun hacc => ⟨_, enable_callback_ok t m i delay (by omega)⟩⟩
  · intro code tick
    refine ⟨⟨_, _, rfl⟩, ?_⟩
    intro fuel hfuel
    rw [task_from_enough_fuel code tick fuel 0 m (by omega)]
    rfl

/-- Faults and returns on the enabled sample (two slots, accuracy 10) and on
the full sample (accuracy 0): ids -1 and 2 assert, id 1 returns, and enable
with accuracy 0 stops at the division. -/
theorem timer_id_fault_sample :
    sw_timer_unregister_callback sw_timer_sample_enabled (-1)
      = .error sw_timer_fault.assert_failed ∧
    sw_timer_enable_callback 5 sw_timer_sample_enabled 2 30
      = .error sw_timer_fault.assert_failed ∧
    sw_timer_disable_callback sw_timer_sample_enabled 2
      = .error sw_timer_fault.assert_failed ∧
    (∃ m' : sw_timer_module 2, sw_timer_enable_callback 5 sw_timer_sample_enabled 1 30 = .ok m') ∧
    sw_timer_enable_callback 5 sw_timer_sample_full 1 30
      = .error sw_timer_fault.division_by_zero :=
  ⟨rfl, rfl, rfl, ⟨_, rfl⟩, rfl⟩

/-- Claim C20. `sw_timer_get_config_defaults` yields accuracy 100, tcc_dev 0 and
tcc_callback_channel 0, whatever the configuration held before. For a
configuration that passes its two assertions `sw_timer_init` returns the module
with the accuracy of the configuration and every handle slot exactly as it was.
So after init with the defaults (on a device with at least one timer instance
and one channel) the accuracy is 100 > 0 and what register does is decided by
the table the caller supplied: it claims the lowest slot that is free in that
table, and returns -1 when that table has no free slot. -/
theorem init_copies_accuracy_and_keeps_table {N : Nat} (TCC_INST_NUM TCC_NUM_CHANNELS : Nat)
    (m : sw_timer_module N) (config : sw_timer_config)
    (hdev : 0 < TCC_INST_NUM) (hch : 0 < TCC_NUM_CHANNELS) :
    sw_timer_get_config_defaults config
      = { accuracy := 100, tcc_dev := 0, tcc_callback_channel := 0 } ∧
    (∀ cfg : sw_timer_config, cfg.tcc_dev < TCC_INST_NUM →
      cfg.tcc_callback_channel < TCC_NUM_CHANNELS →
      ∃ m' : sw_timer_module N,
        sw_timer_init TCC_INST_NUM TCC_NUM_CHANNELS m cfg = .ok m' ∧
        m'.accuracy = cfg.accuracy ∧ m'.handler = m.handler) ∧
    ∃ m' : sw_timer_module N,
      sw_timer_init TCC_INST_NUM TCC_NUM_CHANNELS m (sw_timer_get_config_defaults config)
        = .ok m' ∧
      m'.accuracy = 100 ∧ 0 < m'.accuracy ∧ m'.handler = m.handler ∧
      ∀ callback context period_ms : Nat,
        (∀ i : Fin N, (m.handler i).used = false →
          (∀ j : Fin N, j.val < i.val → (m.handler j).used = true) →
          ∃ m'' : sw_timer_module N,
            sw_timer_register_callback m' callback context period_ms
              = .ok ((i.val : Int), m'') ∧
            (∀ j : Fin N, j ≠ i → m''.handler j = m.handler j)) ∧
        ((∀ i : Fin N, (m.handler i).used = true) →
          sw_timer_register_callback m' callback context period_ms = .ok (-1, m')) := by
  refine ⟨rfl, ?_, ?_⟩
  · intro cfg h1 h2
    exact ⟨{ m with accuracy := cfg.accuracy }, by rw [sw_timer_init, if_pos h1, if_pos h2],
      rfl, rfl⟩
  · refine ⟨{ m with accuracy := 100 }, ?_, rfl, by norm_num, rfl, ?_⟩
    · have h1 : (sw_timer_get_config_defaults config).tcc_dev < TCC_INST_NUM := hdev
      have h2 : (sw_timer_get_config_defaults config).tcc_callback_channel
          < TCC_NUM_CHANNELS := hch
      rw [sw_timer_init, if_pos h1, if_pos h2]
      rfl
    · intro callback context period_ms
      refine ⟨?_, ?_⟩
      · intro i hfree hlow
        refine ⟨_, register_lowest _ callback context period_ms i (by norm_num) hfree hlow,
          ?_⟩
        intro j hj
        exact store_handler_other _ _ _ _ hj
      · intro hfull
        exact register_from_full _ callback context period_ms N 0 (fun j _ => hfull j)

theorem init_copies_accuracy_and_keeps_table_witness :
    ((0 : Nat) < 3 ∧ (0 : Nat) < 4) ∧
    (sw_timer_get_config_defaults { accuracy := 0, tcc_dev := 9, tcc_callback_channel := 9 }
      = { accuracy := 100, tcc_dev := 0, tcc_callback_channel := 0 } ∧
    (∀ cfg : sw_timer_config, cfg.tcc_dev < 3 → cfg.tcc_callback_channel < 4 →
      ∃ m' : sw_timer_module 1,
        sw_timer_init 3 4 (sw_timer_sample_stale 77 true) cfg = .ok m' ∧
        m'.accuracy = cfg.accuracy ∧ m'.handler = (sw_timer_sample_stale 77 true).handler) ∧
    ∃ m' : sw_timer_module 1,
      sw_timer_init 3 4 (sw_timer_sample_stale 77 true)
        (sw_timer_get_config_defaults
          { accuracy := 0, tcc_dev := 9, tcc_callback_channel := 9 }) = .ok m' ∧
      m'.accuracy = 100 ∧ 0 < m'.accuracy ∧
      m'.handler = (sw_timer_sample_stale 77 true).handler ∧
      ∀ callback context period_ms : Nat,
        (∀ i : Fin 1, ((sw_timer_sample_stale 77 true).handler i).used = false →
          (∀ j : Fin 1, j.val < i.val →
            ((sw_timer_sample_stale 77 true).handler j).used = true) →
          ∃ m'' : sw_timer_module 1,
            sw_timer_register_callback m' callback context period_ms
              = .ok ((i.val : Int), m'') ∧
            (∀ j : Fin 1, j ≠ i → m''.handler j = (sw_timer_sample_stale 77 true).handler j)) ∧
        ((∀ i : Fin 1, ((sw_timer_sample_stale 77 true).handler i).used = true) →
          sw_timer_register_callback m' callback context period_ms = .ok (-1, m'))) :=
  ⟨⟨by decide, by decide⟩,
    init_copies_accuracy_and_keeps_table 3 4 (sw_timer_sample_stale 77 true)
      { accuracy := 0, tcc_dev := 9, tcc_callback_channel := 9 } (by decide) (by decide)⟩

/-- Init with the defaults on the stale one-slot sample (slot free, busy flag
set, enabled flag set, expire time 77): the accuracy becomes 100, the slot keeps
its busy and enabled flags, and a configuration naming timer instance 3 of 3
fails the assertion. -/
theorem init_sample :
    (∃ m' : sw_timer_module 1,
      sw_timer_init 3 4 (sw_timer_sample_stale 77 true)
        (sw_timer_get_config_defaults
          { accuracy := 0, tcc_dev := 9, tcc_callback_channel := 9 }) = .ok m' ∧
      m'.accuracy = 100 ∧ (m'.handler 0).busy = true ∧
      (m'.handler 0).callback_enable = true ∧ (m'.handler 0).used = false ∧
      (m'.handler 0).expire_time = 77) ∧
    sw_timer_init 3 4 (sw_timer_sample_stale 77 true)
      { accuracy := 100, tcc_dev := 3, tcc_callback_channel := 0 }
      = .error sw_timer_fault.assert_failed :=
  ⟨⟨_, rfl, by decide, by decide, by decide, by decide, by decide⟩, rfl⟩

/-! ## Order of the invocations of one pass -/

theorem task_body_log_ids {N : Nat} (code : sw_timer_code N) (tick : Nat) (index : Fin N)
    (m : sw_timer_module N) :
    ∀ c ∈ (sw_timer_task_body code tick index m).2, c.timer_id = (index.val : Int) := by
  intro c hc
  cases hf : sw_timer_fires tick (m.handler index) with
  | false =>
    rw [task_body_idle code tick index m hf] at hc
    cases hc
  | true =>
    rw [task_body_fire code tick index m hf] at hc
    simp only [List.mem_singleton] at hc
    rw [hc]

/-- The invocations of the loop started at `index` carry timer ids from
`index` up to `N - 1`, in strictly increasing order. -/
theorem task_from_log_sorted {N : Nat} (code : sw_timer_code N) (tick : Nat) :
    ∀ (fuel index : Nat) (m : sw_timer_module N),
      (∀ c ∈ (sw_timer_task_from code tick fuel index m).2,
        (index : Int) ≤ c.timer_id ∧ c.timer_id < (N : Int)) ∧
      (sw_timer_task_from code tick fuel index m).2.Pairwise
        (fun a b => a.timer_id < b.timer_id) := by
  intro fuel
  induction fuel with
  | zero =>
    intro index m
    exact ⟨fun c hc => (by cases hc), List.Pairwise.nil⟩
  | succ fuel ih =>
    intro index m
    rw [sw_timer_task_from]
    by_cases hN : index < N
    · rw [dif_pos hN]
      dsimp only
      have hb := task_body_log_ids code tick ⟨index, hN⟩ m
      obtain ⟨hr1, hr2⟩ := ih (index + 1) (sw_timer_task_body code tick ⟨index, hN⟩ m).1
      have hbsorted : (sw_timer_task_body code tick ⟨index, hN⟩ m).2.Pairwise
          (fun a b => a.timer_id < b.timer_id) := by
        cases hf : sw_timer_fires tick (m.handler ⟨index, hN⟩) with
        | false =>
          rw [task_body_idle code tick _ m hf]
          exact List.Pairwise.nil
        | true =>
          rw [task_body_fire code tick _ m hf]
          exact List.pairwise_singleton _ _
      refine ⟨?_, ?_⟩
      · intro c hc
        rcases List.mem_append.1 hc with h | h
        · have := hb c h
          simp only at this
          omega
        · have := hr1 c h
          omega
      · rw [List.pairwise_append]
        refine ⟨hbsorted, hr2, ?_⟩
        intro a ha b hb2
        have h1 := hb a ha
        have h2 := hr1 b hb2
        simp only at h1
        omega
    · rw [dif_neg hN]
      exact ⟨fun c hc => (by cases hc), List.Pairwise.nil⟩

/-- Claim C16, as stated, fails. Three timers, all used, enabled, not busy and
due at tick 101; the callback of timer 0 disables timer 1, the callback of
timers 1 and 2 touches nothing (so the callback of timer 1 does not change
slot 2). The pass invokes timers 0 and 2 only: for `i = 1 < j = 2` the callback
of `j` is invoked and that of `i` is not. -/
theorem task_skips_timer_disabled_by_earlier_callback :
    sw_timer_fires 101 (sw_timer_sample_three_due.handler 1) = true ∧
    sw_timer_fires 101 (sw_timer_sample_three_due.handler 2) = true ∧
    (∀ (tick : Nat) (m : sw_timer_module 3) (id : Int) (context period : Nat),
      sw_timer_code_disable_one 3 (sw_timer_sample_three_due.handler 1).callback tick m id
        context period = m) ∧
    (sw_timer_task (sw_timer_code_disable_one 3) 101 sw_timer_sample_three_due).2.map
      (fun c => c.timer_id) = [0, 2] ∧
    sw_timer_calls_of
      (sw_timer_task (sw_timer_code_disable_one 3) 101 sw_timer_sample_three_due).2 1 = [] :=
  ⟨by decide, by decide, fun _ _ _ _ _ => rfl, by decide, rfl⟩

/-- Claim C16, amended. In every pass the invocations are made in strictly
increasing timer id order, with ids in [0, N), so each slot is invoked at most
once. If slots `i < j` both meet the firing conditions when the pass starts and
no callback invoked for another timer writes slot `i` or slot `j` (this
includes that the callback of `i` does not change slot `j`), then both are
invoked, `i` before `j`. -/
theorem task_invokes_in_index_order {N : Nat} (code : sw_timer_code N) (tick : Nat)
    (m : sw_timer_module N) :
    ((sw_timer_task code tick m).2.map (fun c => c.timer_id)).Pairwise (fun a b => a < b) ∧
    (∀ c ∈ (sw_timer_task code tick m).2, 0 ≤ c.timer_id ∧ c.timer_id < (N : Int)) ∧
    (∀ k : Int, (sw_timer_calls_of (sw_timer_task code tick m).2 k).length ≤ 1) ∧
    (∀ i j : Fin N, i.val < j.val →
      sw_timer_fires tick (m.handler i) = true → sw_timer_fires tick (m.handler j) = true →
      sw_timer_others_keep code i → sw_timer_others_keep code j →
      ∃ (ci cj : sw_timer_call N) (l1 l2 l3 : List (sw_timer_call N)),
        (sw_timer_task code tick m).2 = l1 ++ ci :: (l2 ++ cj :: l3) ∧
        ci.timer_id = (i.val : Int) ∧ cj.timer_id = (j.val : Int) ∧
        ci.callback = (m.handler i).callback ∧ cj.callback = (m.handler j).callback) := by
  obtain ⟨hrange, hsorted⟩ := task_from_log_sorted code tick N 0 m
  have hsorted2 : (sw_timer_task code tick m).2.Pairwise
      (fun a b => a.timer_id < b.timer_id) := hsorted
  refine ⟨?_, ?_, ?_, ?_⟩
  · rw [List.pairwise_map]
    exact hsorted2
  · intro c hc
    have := hrange c hc
    omega
  · intro k
    have hsub : (sw_timer_calls_of (sw_timer_task code tick m).2 k).Pairwise
        (fun a b => a.timer_id < b.timer_id) := hsorted2.filter _
    have hall : ∀ c ∈ sw_timer_calls_of (sw_timer_task code tick m).2 k, c.timer_id = k := by
      intro c hc
      have := (List.mem_filter.1 hc).2
      simpa using this
    match hl : sw_timer_calls_of (sw_timer_task code tick m).2 k with
    | [] => simp
    | [_] => simp
    | a :: b :: rest =>
      rw [hl] at hsub hall
      have hab := (List.pairwise_cons.1 hsub).1 b (List.mem_cons_self _ _)
      have ha := hall a (List.mem_cons_self _ _)
      have hb := hall b (List.mem_cons_of_mem _ (List.mem_cons_self _ _))
      omega
  · intro i j hij hfi hfj hki hkj
    have hex : ∀ k : Fin N, sw_timer_fires tick (m.handler k) = true →
        sw_timer_others_keep code k →
        ∃ c : sw_timer_call N, c ∈ (sw_timer_task code tick m).2 ∧
          c.timer_id = (k.val : Int) ∧ c.callback = (m.handler k).callback := by
      intro k hfk hkk
      obtain ⟨mk, hmk, hck, _⟩ := task_fires code tick k m hkk hfk
      have hmem : ∀ c : sw_timer_call N,
          sw_timer_calls_of (sw_timer_task code tick m).2 (k.val : Int) = [c] →
          c ∈ (sw_timer_task code tick m).2 := by
        intro c hc
        have h1 : c ∈ sw_timer_calls_of (sw_timer_task code tick m).2 (k.val : Int) := by
          rw [hc]; exact List.mem_singleton_self _
        exact (List.mem_filter.1 h1).1
      exact ⟨_, hmem _ hck, rfl, congrArg sw_timer_handle.callback hmk⟩
    obtain ⟨ci, hmem_i, hid_i, hcb_i⟩ := hex i hfi hki
    obtain ⟨cj, hmem_j, hid_j, hcb_j⟩ := hex j hfj hkj
    obtain ⟨l1, rest, hsplit⟩ := List.append_of_mem hmem_i
    rw [hsplit] at hmem_j hsorted2
    rw [List.pairwise_append] at hsorted2
    obtain ⟨_, _, hcross⟩ := hsorted2
    have hj_rest : cj ∈ rest := by
      rcases List.mem_append.1 hmem_j with h | h
      · have := hcross _ h _ (List.mem_cons_self _ _)
        omega
      · rcases List.mem_cons.1 h with h2 | h2
        · rw [h2] at hid_j
          omega
        · exact h2
    obtain ⟨l2, l3, hsplit2⟩ := List.append_of_mem hj_rest
    exact ⟨ci, cj, l1, l2, l3, by rw [hsplit, hsplit2], hid_i, hid_j, hcb_i, hcb_j⟩

/-- The three-timer sample with idle callbacks: the pass at tick 101 invokes
timers 0, 1 and 2 in this order, each once. -/
theorem task_order_sample :
    (sw_timer_task (sw_timer_code_idle 3) 101 sw_timer_sample_three_due).2.map
      (fun c => (c.timer_id, c.callback)) = [(0, 7), (1, 8), (2, 8)] := by
  decide

/-! ## The busy flag -/

theorem same_busy_refl {N : Nat} (m : sw_timer_module N) : sw_timer_same_busy m m :=
  fun _ => rfl

theorem same_busy_trans {N : Nat} {a b c : sw_timer_module N}
    (h1 : sw_timer_same_busy a b) (h2 : sw_timer_same_busy b c) : sw_timer_same_busy a c :=
  fun j => (h2 j).trans (h1 j)

theorem store_same_busy {N : Nat} (m : sw_timer_module N) (i : Fin N) (h : sw_timer_handle)
    (hb : h.busy = (m.handler i).busy) : sw_timer_same_busy m (m.store i h) := by
  intro j
  by_cases hj : j = i
  · rw [hj, store_handler_same, hb]
  · rw [store_handler_other _ _ _ _ hj]

theorem register_same_busy {N : Nat} (m m' : sw_timer_module N)
    (callback context period : Nat) (id : Int)
    (h : sw_timer_register_callback m callback context period = .ok (id, m')) :
    sw_timer_same_busy m m' := by
  rcases register_cases _ _ _ _ _ _ h with ⟨_, hm⟩ | ⟨i, _, _, hm⟩
  · rw [hm]; exact same_busy_refl m
  · rw [hm, sw_timer_registered]
    exact store_same_busy m i _ rfl

theorem unregister_same_busy {N : Nat} (m m' : sw_timer_module N) (timer_id : Int)
    (h : sw_timer_unregister_callback m timer_id = .ok m') : sw_timer_same_busy m m' := by
  unfold sw_timer_unregister_callback at h
  split at h
  · cases h
    exact store_same_busy m _ _ rfl
  · cases h

theorem disable_same_busy {N : Nat} (m m' : sw_timer_module N) (timer_id : Int)
    (h : sw_timer_disable_callback m timer_id = .ok m') : sw_timer_same_busy m m' := by
  unfold sw_timer_disable_callback at h
  split at h
  · cases h
    exact store_same_busy m _ _ rfl
  · cases h

theorem enable_same_busy {N : Nat} (tick : Nat) (m m' : sw_timer_module N) (timer_id : Int)
    (delay : Nat) (h : sw_timer_enable_callback tick m timer_id delay = .ok m') :
    sw_timer_same_busy m m' := by
  unfold sw_timer_enable_callback at h
  split at h
  · dsimp only at h
    split at h
    · cases h
    · cases h
      exact store_same_busy m _ _ rfl
  · cases h

theorem fires_busy_clear (tick : Nat) (h : sw_timer_handle)
    (hf : sw_timer_fires tick h = true) : h.busy = false := by
  unfold sw_timer_fires at hf
  simp only [Bool.and_eq_true, beq_iff_eq] at hf
  exact hf.2

/-- One loop iteration gives back every busy flag as it found it, provided the
callback it runs does. -/
theorem task_body_same_busy {N : Nat} (code : sw_timer_code N) (tick : Nat) (index : Fin N)
    (m : sw_timer_module N)
    (H : sw_timer_fires tick (m.handler index) = true →
      sw_timer_same_busy (sw_timer_task_entered tick index m)
        (sw_timer_task_returned code tick index m)) :
    sw_timer_same_busy m (sw_timer_task_body code tick index m).1 := by
  cases hf : sw_timer_fires tick (m.handler index) with
  | false =>
    rw [task_body_idle code tick index m hf]
    exact same_busy_refl m
  | true =>
    rw [task_body_fire code tick index m hf]
    intro j
    dsimp only
    by_cases hj : j = index
    · rw [hj, store_handler_same, fires_busy_clear tick _ hf]
    · rw [store_handler_other _ _ _ _ hj, H hf j, sw_timer_task_entered,
        store_handler_other _ _ _ _ hj]

/-- The loop gives back every busy flag as it found it, when this holds for the
callbacks run from the states of a class `Q` that is closed under changes that
keep the busy flags. -/
theorem task_from_same_busy {N : Nat} (code : sw_timer_code N) (tick : Nat)
    (Q : sw_timer_module N → Prop)
    (hQ : ∀ m m' : sw_timer_module N, Q m → sw_timer_same_busy m m' → Q m')
    (H : ∀ (m : sw_timer_module N) (index : Fin N), Q m →
      sw_timer_fires tick (m.handler index) = true →
      sw_timer_same_busy (sw_timer_task_entered tick index m)
        (sw_timer_task_returned code tick index m)) :
    ∀ (fuel index : Nat) (m : sw_timer_module N), Q m →
      sw_timer_same_busy m (sw_timer_task_from code tick fuel index m).1 := by
  intro fuel
  induction fuel with
  | zero => intro index m _; exact same_busy_refl m
  | succ fuel ih =>
    intro index m hm
    rw [sw_timer_task_from]
    by_cases hN : index < N
    · rw [dif_pos hN]
      have hb := task_body_same_busy code tick ⟨index, hN⟩ m (H m ⟨index, hN⟩ hm)
      exact same_busy_trans hb (ih (index + 1) _ (hQ _ _ hm hb))
    · rw [dif_neg hN]
      exact same_busy_refl m

/-- Calls of the interface keep the busy flags, if the re-entrant passes among
them do. -/
theorem api_reach_same_busy {N : Nat} (code : sw_timer_code N) (tick : Nat)
    (e : sw_timer_module N)
    (Htask : ∀ m1 : sw_timer_module N, sw_timer_same_busy e m1 →
      sw_timer_same_busy m1 (sw_timer_task code tick m1).1) :
    ∀ x : sw_timer_module N, sw_timer_api_reach code tick e x → sw_timer_same_busy e x := by
  intro x hx
  induction hx with
  | refl => exact same_busy_refl e
  | register callback context period id _ hreg ih =>
    exact same_busy_trans ih (register_same_busy _ _ _ _ _ _ hreg)
  | unregister timer_id _ hop ih =>
    exact same_busy_trans ih (unregister_same_busy _ _ _ hop)
  | enable timer_id delay _ hop ih =>
    exact same_busy_trans ih (enable_same_busy _ _ _ _ _ hop)
  | disable timer_id _ hop ih =>
    exact same_busy_trans ih (disable_same_busy _ _ _ hop)
  | task _ ih =>
    exact same_busy_trans ih (Htask _ ih)

theorem idle_count_same_busy {N : Nat} (m m' : sw_timer_module N)
    (h : sw_timer_same_busy m m') : sw_timer_idle_count m' = sw_timer_idle_count m := by
  unfold sw_timer_idle_count
  congr 1
  apply Finset.filter_congr
  intro j _
  rw [h j]

theorem idle_count_entered {N : Nat} (tick : Nat) (index : Fin N) (m : sw_timer_module N)
    (hb : (m.handler index).busy = false) :
    sw_timer_idle_count (sw_timer_task_entered tick index m) < sw_timer_idle_count m := by
  unfold sw_timer_idle_count
  apply Finset.card_lt_card
  rw [Finset.ssubset_iff_of_subset]
  · refine ⟨index, by simp [hb], ?_⟩
    simp [sw_timer_task_entered, store_handler_same, task_arm_busy]
  · intro j hj
    simp only [Finset.mem_filter, Finset.mem_univ, true_and] at hj ⊢
    by_cases hji : j = index
    · rw [hji]; exact hb
    · rw [sw_timer_task_entered, store_handler_other _ _ _ _ hji] at hj
      exact hj

/-- With callbacks that use only the interface, a pass gives back every busy
flag as it found it; by induction on the number of slots that are not busy,
which bounds the depth of re-entrant passes. -/
theorem task_same_busy_of_api_only {N : Nat} (code : sw_timer_code N)
    (hapi : sw_timer_api_only code) :
    ∀ (n : Nat) (m : sw_timer_module N) (tick : Nat), sw_timer_idle_count m ≤ n →
      sw_timer_same_busy m (sw_timer_task code tick m).1 := by
  intro n
  induction n with
  | zero =>
    intro m tick hm
    refine task_from_same_busy code tick (fun x => sw_timer_idle_count x ≤ 0)
      (fun a b ha hab => by
        show sw_timer_idle_count b ≤ _
        rw [idle_count_same_busy a b hab]
        exact ha) ?_ N 0 m hm
    intro a index ha hf
    have := idle_count_entered tick index a (fires_busy_clear tick _ hf)
    omega
  | succ n ih =>
    intro m tick hm
    refine task_from_same_busy code tick (fun x => sw_timer_idle_count x ≤ n + 1)
      (fun a b ha hab => by
        show sw_timer_idle_count b ≤ _
        rw [idle_count_same_busy a b hab]
        exact ha) ?_ N 0 m hm
    intro a index ha hf
    have hlt := idle_count_entered tick index a (fires_busy_clear tick _ hf)
    apply api_reach_same_busy code tick (sw_timer_task_entered tick index a)
    · intro m1 h1
      apply ih m1 tick
      rw [idle_count_same_busy _ _ h1]
      omega
    · exact hapi _ _ _ _ _ _

/-- Every invocation of the loop is handed a module in which the slot of the
invoked timer has `busy = 1`. -/
theorem task_from_log_busy {N : Nat} (code : sw_timer_code N) (tick : Nat) :
    ∀ (fuel index : Nat) (m : sw_timer_module N),
      ∀ c ∈ (sw_timer_task_from code tick fuel index m).2,
        ∃ i : Fin N, c.timer_id = (i.val : Int) ∧ (c.observed.handler i).busy = true := by
  intro fuel
  induction fuel with
  | zero => intro index m c hc; cases hc
  | succ fuel ih =>
    intro index m c hc
    rw [sw_timer_task_from] at hc
    by_cases hN : index < N
    · rw [dif_pos hN] at hc
      dsimp only at hc
      rcases List.mem_append.1 hc with h | h
      · cases hf : sw_timer_fires tick (m.handler ⟨index, hN⟩) with
        | false =>
          rw [task_body_idle code tick _ m hf] at h
          cases h
        | true =>
          rw [task_body_fire code tick _ m hf] at h
          simp only [List.mem_singleton] at h
          refine ⟨⟨index, hN⟩, by rw [h], ?_⟩
          rw [h]
          show ((sw_timer_task_entered tick ⟨index, hN⟩ m).handler ⟨index, hN⟩).busy = true
          rw [sw_timer_task_entered, store_handler_same, task_arm_busy]
      · exact ih (index + 1) _ c h
    · rw [dif_neg hN] at hc
      cases hc

/-- A pass that finds no slot meeting the firing conditions returns the module
unchanged and invokes nothing. -/
theorem task_from_all_quiet {N : Nat} (code : sw_timer_code N) (tick : Nat)
    (m : sw_timer_module N) (hq : ∀ j : Fin N, sw_timer_fires tick (m.handler j) = false) :
    ∀ (fuel index : Nat), sw_timer_task_from code tick fuel index m = (m, []) := by
  intro fuel
  induction fuel with
  | zero => intro index; rfl
  | succ fuel ih =>
    intro index
    rw [sw_timer_task_from]
    by_cases hN : index < N
    · rw [dif_pos hN]
      dsimp only
      rw [task_body_idle code tick _ m (hq _), ih (index + 1)]
      rfl
    · rw [dif_neg hN]

/-- On a one-slot module a pass is its single loop iteration. -/
theorem task_single_slot (code : sw_timer_code 1) (tick : Nat) (m : sw_timer_module 1) :
    (sw_timer_task code tick m).1 = (sw_timer_task_body code tick 0 m).1 := by
  show (sw_timer_task_from code tick 1 0 m).1 = _
  rw [sw_timer_task_from, dif_pos (by norm_num)]
  rfl

/-- The re-entering callbacks of the one-slot environment use only the
interface: what they return is the result of one call of `sw_timer_task` with
the same environment. -/
theorem code_reenter_api_only : sw_timer_api_only sw_timer_code_reenter := by
  intro p tick m id context period
  have hinner : ∀ e : sw_timer_module 1, (e.handler 0).busy = true →
      (sw_timer_task (sw_timer_code_idle 1) tick e).1 = e := by
    intro e he
    have hq : ∀ j : Fin 1, sw_timer_fires tick (e.handler j) = false := by
      intro j
      rw [Subsingleton.elim j 0]
      simp [sw_timer_fires, he]
    show (sw_timer_task_from (sw_timer_code_idle 1) tick 1 0 e).1 = e
    rw [task_from_all_quiet _ tick e hq]
  have hsame : (sw_timer_task sw_timer_code_reenter tick m).1
      = (sw_timer_task (sw_timer_code_idle 1) tick m).1 := by
    rw [task_single_slot, task_single_slot]
    cases hf : sw_timer_fires tick (m.handler 0) with
    | false =>
      rw [task_body_idle _ tick 0 m hf, task_body_idle _ tick 0 m hf]
    | true =>
      rw [task_body_fire _ tick 0 m hf, task_body_fire _ tick 0 m hf]
      have hret : sw_timer_task_returned sw_timer_code_reenter tick 0 m
          = sw_timer_task_returned (sw_timer_code_idle 1) tick 0 m := by
        show (sw_timer_task (sw_timer_code_idle 1) tick (sw_timer_task_entered tick 0 m)).1
          = sw_timer_task_entered tick 0 m
        apply hinner
        rw [sw_timer_task_entered, store_handler_same, task_arm_busy]
      rw [hret]
  have hstep : sw_timer_api_reach sw_timer_code_reenter tick m
      (sw_timer_task sw_timer_code_reenter tick m).1 :=
    sw_timer_api_reach.task (sw_timer_api_reach.refl m)
  rw [hsame] at hstep
  exact hstep

/-- Claim C14. The busy flag is set only inside a callback. If every slot has
`busy = 0` and all callbacks change the module only through register,
unregister, enable, disable and re-entrant passes of the dispatcher, then every
slot has `busy = 0` when `sw_timer_task` returns; each invocation of the pass
is handed a module in which the slot of the invoked timer has `busy = 1`, and
that slot has `busy = 0` once the pass has returned. Register, unregister,
enable and disable never change the busy flag of any slot. -/
theorem task_returns_with_busy_clear {N : Nat} (code : sw_timer_code N)
    (hapi : sw_timer_api_only code) (tick : Nat) (m : sw_timer_module N)
    (hclear : ∀ j : Fin N, (m.handler j).busy = false) :
    (∀ j : Fin N, ((sw_timer_task code tick m).1.handler j).busy = false) ∧
    (∀ c ∈ (sw_timer_task code tick m).2,
      ∃ i : Fin N, c.timer_id = (i.val : Int) ∧ (c.observed.handler i).busy = true ∧
        ((sw_timer_task code tick m).1.handler i).busy = false) ∧
    (∀ (m0 m1 : sw_timer_module N) (callback context period : Nat) (id : Int),
      sw_timer_register_callback m0 callback context period = .ok (id, m1) →
      ∀ j : Fin N, (m1.handler j).busy = (m0.handler j).busy) ∧
    (∀ (m0 m1 : sw_timer_module N) (timer_id : Int),
      sw_timer_unregister_callback m0 timer_id = .ok m1 →
      ∀ j : Fin N, (m1.handler j).busy = (m0.handler j).busy) ∧
    (∀ (m0 m1 : sw_timer_module N) (t delay : Nat) (timer_id : Int),
      sw_timer_enable_callback t m0 timer_id delay = .ok m1 →
      ∀ j : Fin N, (m1.handler j).busy = (m0.handler j).busy) ∧
    (∀ (m0 m1 : sw_timer_module N) (timer_id : Int),
      sw_timer_disable_callback m0 timer_id = .ok m1 →
      ∀ j : Fin N, (m1.handler j).busy = (m0.handler j).busy) := by
  have hkeep := task_same_busy_of_api_only code hapi (sw_timer_idle_count m) m tick
    (le_refl _)
  have hend : ∀ j : Fin N, ((sw_timer_task code tick m).1.handler j).busy = false :=
    fun j => (hkeep j).trans (hclear j)
  refine ⟨hend, ?_, ?_, ?_, ?_, ?_⟩
  · intro c hc
    obtain ⟨i, h1, h2⟩ := task_from_log_busy code tick N 0 m c hc
    exact ⟨i, h1, h2, hend i⟩
  · intro m0 m1 callback context period id h
    exact register_same_busy m0 m1 callback context period id h
  · intro m0 m1 timer_id h
    exact unregister_same_busy m0 m1 timer_id h
  · intro m0 m1 t delay timer_id h
    exact enable_same_busy t m0 m1 timer_id delay h
  · intro m0 m1 timer_id h
    exact disable_same_busy m0 m1 timer_id h

theorem task_returns_with_busy_clear_witness :
    (∀ j : Fin 1, (sw_timer_sample_single.handler j).busy = false) ∧
    ((∀ j : Fin 1,
      ((sw_timer_task sw_timer_code_reenter 101 sw_timer_sample_single).1.handler j).busy
        = false) ∧
    (∀ c ∈ (sw_timer_task sw_timer_code_reenter 101 sw_timer_sample_single).2,
      ∃ i : Fin 1, c.timer_id = (i.val : Int) ∧ (c.observed.handler i).busy = true ∧
        ((sw_timer_task sw_timer_code_reenter 101 sw_timer_sample_single).1.handler i).busy
          = false) ∧
    (∀ (m0 m1 : sw_timer_module 1) (callback context period : Nat) (id : Int),
      sw_timer_register_callback m0 callback context period = .ok (id, m1) →
      ∀ j : Fin 1, (m1.handler j).busy = (m0.handler j).busy) ∧
    (∀ (m0 m1 : sw_timer_module 1) (timer_id : Int),
      sw_timer_unregister_callback m0 timer_id = .ok m1 →
      ∀ j : Fin 1, (m1.handler j).busy = (m0.handler j).busy) ∧
    (∀ (m0 m1 : sw_timer_module 1) (t delay : Nat) (timer_id : Int),
      sw_timer_enable_callback t m0 timer_id delay = .ok m1 →
      ∀ j : Fin 1, (m1.handler j).busy = (m0.handler j).busy) ∧
    (∀ (m0 m1 : sw_timer_module 1) (timer_id : Int),
      sw_timer_disable_callback m0 timer_id = .ok m1 →
      ∀ j : Fin 1, (m1.handler j).busy = (m0.handler j).busy)) :=
  ⟨by decide,
    task_returns_with_busy_clear sw_timer_code_reenter code_reenter_api_only 101
      sw_timer_sample_single (by decide)⟩

/-- The pass at tick 101 over the single-timer sample with the re-entering
callback: one invocation, which sees `busy = 1`; the inner pass it makes
invokes nothing, and the slot ends with `busy = 0` and re-armed for tick 111. -/
theorem task_reenter_sample :
    (sw_timer_task sw_timer_code_reenter 101 sw_timer_sample_single).2.map
      (fun c => (c.timer_id, (c.observed.handler 0).busy)) = [(0, true)] ∧
    (sw_timer_task sw_timer_code_reenter 101 sw_timer_sample_single).1.handler 0
      = { sw_timer_sample_single.handler 0 with expire_time := 111 } := by
  decide

theorem timer_id_out_of_range_asserts_witness :
    (¬ (0 ≤ (5 : Int) ∧ (5 : Int) < ((2 : Nat) : Int)) →
      sw_timer_unregister_callback sw_timer_sample_enabled 5
        = .error sw_timer_fault.assert_failed ∧
      sw_timer_enable_callback 9 sw_timer_sample_enabled 5 30
        = .error sw_timer_fault.assert_failed ∧
      sw_timer_disable_callback sw_timer_sample_enabled 5
        = .error sw_timer_fault.assert_failed) ∧
    (0 ≤ (5 : Int) → (5 : Int) < ((2 : Nat) : Int) →
      (∃ m' : sw_timer_module 2,
        sw_timer_unregister_callback sw_timer_sample_enabled 5 = .ok m') ∧
      (∃ m' : sw_timer_module 2,
        sw_timer_disable_callback sw_timer_sample_enabled 5 = .ok m') ∧
      (0 < sw_timer_sample_enabled.accuracy →
        ∃ m' : sw_timer_module 2,
          sw_timer_enable_callback 9 sw_timer_sample_enabled 5 30 = .ok m')) ∧
    (∀ (code : sw_timer_code 2) (tick : Nat),
      (∃ (m' : sw_timer_module 2) (log : List (sw_timer_call 2)),
        sw_timer_task code tick sw_timer_sample_enabled = (m', log)) ∧
      ∀ fuel : Nat, 2 ≤ fuel →
        sw_timer_task_from code tick fuel 0 sw_timer_sample_enabled
          = sw_timer_task code tick sw_timer_sample_enabled) :=
  timer_id_out_of_range_asserts sw_timer_sample_enabled 5 9 30

theorem task_invokes_in_index_order_witness :
    (sw_timer_fires 101 (sw_timer_sample_three_due.handler 1) = true ∧
      sw_timer_fires 101 (sw_timer_sample_three_due.handler 2) = true) ∧
    ∃ (ci cj : sw_timer_call 3) (l1 l2 l3 : List (sw_timer_call 3)),
      (sw_timer_task (sw_timer_code_idle 3) 101 sw_timer_sample_three_due).2
        = l1 ++ ci :: (l2 ++ cj :: l3) ∧
      ci.timer_id = (((1 : Fin 3).val : Nat) : Int) ∧
      cj.timer_id = (((2 : Fin 3).val : Nat) : Int) ∧
      ci.callback = (sw_timer_sample_three_due.handler 1).callback ∧
      cj.callback = (sw_timer_sample_three_due.handler 2).callback :=
  ⟨⟨by decide, by decide⟩,
    (task_invokes_in_index_order (sw_timer_code_idle 3) 101 sw_timer_sample_three_due).2.2.2
      1 2 (by decide) (by decide) (by decide) (code_idle_others_keep 3 1)
      (code_idle_others_keep 3 2)⟩
